import Mathlib

/-!
Shallow embedding of the safety gateway in `src/macos_agent/server.py`
(macOS computer agent).  Pure Python functions become Lean functions;
the module's mutable globals (`PENDING_CONFIRMATIONS`, `SESSION_TOKENS`,
`LAST_ACTION`, `REQUEST_TIMESTAMPS`, `UI_ELEMENT_INDEX`) become an explicit
`AgentState` threaded through every handler; the configuration globals
(`AGENT_TOKEN`, `RATE_LIMIT_PER_MINUTE`, `COOLDOWNS`, `SESSION_TOKEN_TTL_SEC`,
`ALLOWED_APPS`, `ENDPOINT_ALLOWLIST`) become a read-only `Config`.

Wall-clock time (`time.time()`) is modelled as `Nat`.  All comparisons the
code makes (`now - t < 60`, `now > expiry`, `now - last < cooldown`) give the
same pass/fail outcome under truncated `Nat` subtraction as under `float`
subtraction whenever timestamps are non-negative, which is the only regime
`time.time()` produces.

`uuid4()` (used for confirmation handles, session tokens and UI element
identifiers) is modelled as a monotone counter `ctr` carried in the state:
each draw returns the current counter value and increments it, which captures
the freshness of uuid4 outputs.  Handles / tokens / element ids are therefore
`Nat` in the model.

Every HTTP handler returns an `HOut`: the response (`Except AgentError Resp`,
where a raised `HTTPException` is the `error` case), the updated state, and
a trace of observable events (`Ev`): gate checks performed, external
OS-driver calls made, and audit-log lines written.
-/

/-- JSON-ish payload values appearing in requests and audit lines. -/
inductive JVal where
  | s (v : String)
  | n (v : Nat)
  | b (v : Bool)
  | strs (v : List String)
  | null
deriving DecidableEq, Repr

abbrev Payload := List (String × JVal)

/-- Error taxonomy: each constructor corresponds to one `HTTPException`
family raised by the source (401 / 403 / 429 rate / 429 cooldown / 404 /
400 missing-field / 400 driver or availability failure). -/
inductive AgentError where
  | Unauthorized
  | Forbidden
  | RateLimited
  | CooldownActive
  | NotFound
  | BadRequest
  | ActionFailed (msg : String)
deriving DecidableEq, Repr

/-- A native accessibility element (opaque `AXUIElement` reference),
modelled as the subtree it roots: role / title / value attributes and
provider-reported children. -/
inductive AXElem where
  | node (role title value : Option String) (children : List AXElem)

/-- The JSON node `_ax_to_node` builds: generated element id, attributes,
children list. -/
inductive UINode where
  | mk (id : Nat) (role title value : Option String) (children : List UINode)

/-- Search hit returned by `_search_tree`: id plus the three attributes. -/
structure Hit where
  id : Nat
  role : Option String
  title : Option String
  value : Option String

/-- HTTP 200 responses: a plain JSON object, a needs-confirmation object
(`ok: false, requires_confirmation: true, action_id`), a tree, or a
search-result list. -/
inductive Resp where
  | ok (data : Payload)
  | needsConfirmation (actionId : Nat)
  | okTree (t : UINode)
  | okHits (hs : List Hit)

/-- Observable events of one handler invocation. -/
inductive Ev where
  | gate (name : String)
  | driver (name : String) (args : Payload)
  | auditLine (action : String) (payload : Payload)
deriving DecidableEq, Repr

/- ---------- association-list dictionaries (python dict) ---------- -/

/-- `d.get(k)` on a python dict modelled as an association list. -/
def alookup {α β : Type} [DecidableEq α] : List (α × β) → α → Option β
  | [], _ => none
  | (k, v) :: rest, k' => if k' = k then some v else alookup rest k'

/-- `d[k] = v`: update in place if the key exists, append otherwise. -/
def ainsert {α β : Type} [DecidableEq α] : List (α × β) → α → β → List (α × β)
  | [], k, v => [(k, v)]
  | (k0, v0) :: rest, k, v =>
      if k = k0 then (k0, v) :: rest else (k0, v0) :: ainsert rest k v

/-- `d.pop(k, None)`'s removal effect. -/
def aerase {α β : Type} [DecidableEq α] : List (α × β) → α → List (α × β)
  | [], _ => []
  | (k0, v0) :: rest, k =>
      if k = k0 then rest else (k0, v0) :: aerase rest k

/- ---------- configuration and state ---------- -/

/-- Read-only configuration (the module globals loaded by `_load_config`). -/
structure Config where
  agentToken : Option String
  sessionTTL : Nat
  ratePerMinute : Nat
  cooldowns : List (String × Nat)
  allowedApps : List String
  endpointAllowlist : List String

/-- The mutable module globals, plus the uuid4 counter `ctr` (model of the
fresh-identifier supply). -/
structure AgentState where
  pending : List (Nat × String)
  sessions : List (Nat × Nat)
  lastAction : List (String × Nat)
  reqTimes : List Nat
  uiIndex : List (Nat × AXElem)
  ctr : Nat

/-- The world outside the gateway: the clock and the external OS
collaborators' observable answers. -/
structure Env where
  now : Nat
  axAvailable : Bool
  axRoot : Option AXElem
  ocrAvailable : Bool
  scriptOutput : String
  shortcutOutput : String
  grabData : String
  ocrText : String
  cursorPos : Nat × Nat
  screenDim : Nat × Nat

/- ---------- constants from the source ---------- -/

/-- `SENSITIVE_ACTIONS` (server.py lines 45-50). -/
def SENSITIVE_ACTIONS : List String :=
  ["run_applescript", "open_app", "press", "shortcuts_run"]

/-- The field names `_redact` replaces (server.py line 163). -/
def REDACT_KEYS : List String := ["text", "script", "value", "token"]

/- ---------- gate functions ---------- -/

/-- `_require_confirmation` (lines 141-146): for a sensitive action, draw a
fresh handle, store `handle -> action` in `PENDING_CONFIRMATIONS`, return it;
otherwise return `None`. -/
def require_confirmation (action : String) (st : AgentState) :
    Option Nat × AgentState :=
  if action ∈ SENSITIVE_ACTIONS then
    (some st.ctr,
     { st with pending := ainsert st.pending st.ctr action, ctr := st.ctr + 1 })
  else (none, st)

/-- `_consume_confirmation` (lines 149-150):
`PENDING_CONFIRMATIONS.pop(action_id, None) == action` — the entry is removed
whenever present, and the call answers whether its stored kind equals
`action`. -/
def consume_confirmation (actionId : Nat) (action : String) (st : AgentState) :
    Bool × AgentState :=
  match alookup st.pending actionId with
  | some a => (a = action, { st with pending := aerase st.pending actionId })
  | none => (false, st)

/-- The confirmation-gate pattern repeated verbatim in the sensitive
handlers (e.g. lines 264-266):
`if action in SENSITIVE_ACTIONS and not (action_id and _consume_confirmation(action_id, action)):`
`    pending = _require_confirmation(action); return needs-confirmation`.
Returns `some h` when the call must be deferred carrying new handle `h`,
`none` when the action may execute. -/
def confirm_gate (action : String) (actionId : Option Nat) (st : AgentState) :
    Option Nat × AgentState :=
  if action ∈ SENSITIVE_ACTIONS then
    let c :=
      match actionId with
      | some aid => consume_confirmation aid action st
      | none => (false, st)
    if c.1 then (none, c.2)
    else require_confirmation action c.2
  else (none, st)

/-- `_redact` (lines 161-166): copy of the payload with every field named in
`REDACT_KEYS` replaced by the fixed marker. -/
def redact (payload : Payload) : Payload :=
  payload.map (fun kv => if kv.1 ∈ REDACT_KEYS then (kv.1, JVal.s "***") else kv)

/-- `_auth` (lines 169-171): `if AGENT_TOKEN and token != AGENT_TOKEN: 401`.
A missing or empty configured token is falsy and disables the check. -/
def auth (cfg : Config) (tok : Option String) : Except AgentError Unit :=
  match cfg.agentToken with
  | some t => if t ≠ "" ∧ tok ≠ some t then .error .Unauthorized else .ok ()
  | none => .ok ()

/-- `_session_auth` (lines 174-180). -/
def session_auth (now : Nat) (tok : Option Nat) (st : AgentState) :
    Except AgentError Unit × AgentState :=
  match tok with
  | none => (.error .Unauthorized, st)
  | some t =>
    match alookup st.sessions t with
    | none => (.error .Unauthorized, { st with sessions := aerase st.sessions t })
    | some expiry =>
      if now > expiry then
        (.error .Unauthorized, { st with sessions := aerase st.sessions t })
      else (.ok (), st)

/-- `_endpoint_allow` (lines 183-185). -/
def endpoint_allow (cfg : Config) (path : String) : Except AgentError Unit :=
  if cfg.endpointAllowlist ≠ [] ∧ path ∉ cfg.endpointAllowlist then
    .error .Forbidden
  else .ok ()

/-- `_rate_limit` (lines 188-193): prune to the trailing 60-second window,
reject at the cap, otherwise append `now`. -/
def rate_limit (cfg : Config) (now : Nat) (st : AgentState) :
    Except AgentError Unit × AgentState :=
  let kept := st.reqTimes.filter (fun t => now - t < 60)
  if kept.length ≥ cfg.ratePerMinute then
    (.error .RateLimited, { st with reqTimes := kept })
  else (.ok (), { st with reqTimes := kept ++ [now] })

/-- `_cooldown` (lines 196-202). -/
def cooldown (cfg : Config) (now : Nat) (action : String) (st : AgentState) :
    Except AgentError Unit × AgentState :=
  let cd := (alookup cfg.cooldowns action).getD 0
  let last := (alookup st.lastAction action).getD 0
  if 0 < cd ∧ now - last < cd then (.error .CooldownActive, st)
  else (.ok (), { st with lastAction := ainsert st.lastAction action now })

/- ---------- the shared gate prologue ---------- -/

/-- Outcome of the gate prologue: pass/fail, updated state, gate events. -/
structure GOut where
  res : Except AgentError Unit
  st : AgentState
  trace : List Ev

/-- The order in which the gate checks appear in every gated handler. -/
def GATE_ORDER : List String := ["endpoint", "auth", "session", "rate", "cooldown"]

/-- The first `n` gate events in canonical order. -/
def gatesUpTo (n : Nat) : List Ev := (GATE_ORDER.take n).map Ev.gate

/-- The gate prologue repeated at the top of every gated handler:
`_endpoint_allow(path); _auth(tok); _session_auth(sess); _rate_limit()`
followed, on the endpoints that have one, by `_cooldown(kind)`
(`cdKind = some kind`).  Raising propagates the state mutated so far. -/
def runGates (cfg : Config) (path : String) (cdKind : Option String)
    (agentTok : Option String) (sessTok : Option Nat) (e : Env)
    (st : AgentState) : GOut :=
  match endpoint_allow cfg path with
  | .error err => ⟨.error err, st, gatesUpTo 1⟩
  | .ok () =>
    match auth cfg agentTok with
    | .error err => ⟨.error err, st, gatesUpTo 2⟩
    | .ok () =>
      match session_auth e.now sessTok st with
      | (.error err, st1) => ⟨.error err, st1, gatesUpTo 3⟩
      | (.ok (), st1) =>
        match rate_limit cfg e.now st1 with
        | (.error err, st2) => ⟨.error err, st2, gatesUpTo 4⟩
        | (.ok (), st2) =>
          match cdKind with
          | none => ⟨.ok (), st2, gatesUpTo 4⟩
          | some k =>
            match cooldown cfg e.now k st2 with
            | (.error err, st3) => ⟨.error err, st3, gatesUpTo 5⟩
            | (.ok (), st3) => ⟨.ok (), st3, gatesUpTo 5⟩

/- ---------- accessibility-tree traversal and search ---------- -/

mutual

/-- `_ax_to_node` (lines 372-392): register the element under a fresh id
(before the depth check, so even cut-off leaves are registered), then, if
`depth < max_depth`, recurse into the provider-reported children. -/
def ax_to_node (e : AXElem) (depth maxDepth : Nat) (st : AgentState) :
    UINode × AgentState :=
  match e with
  | .node role title value children =>
    let eid := st.ctr
    let st1 := { st with
      uiIndex := ainsert st.uiIndex eid (AXElem.node role title value children),
      ctr := st.ctr + 1 }
    if depth ≥ maxDepth then (UINode.mk eid role title value [], st1)
    else
      let r := ax_children children (depth + 1) maxDepth st1
      (UINode.mk eid role title value r.1, r.2)

/-- The `for child in children` loop of `_ax_to_node`, in order. -/
def ax_children (es : List AXElem) (depth maxDepth : Nat) (st : AgentState) :
    List UINode × AgentState :=
  match es with
  | [] => ([], st)
  | c :: rest =>
    let r1 := ax_to_node c depth maxDepth st
    let r2 := ax_children rest depth maxDepth r1.2
    (r1.1 :: r2.1, r2.2)

end

/-- Python's `query in hay` substring test. -/
def strContains (hay q : String) : Bool :=
  hay.data.tails.any (fun t => q.data.isPrefixOf t)

/-- The haystack `_search_tree` builds for a node:
`" ".join(filter(None, [role, title, value])).lower()` — `filter(None, ..)`
drops both `None` and empty strings. -/
def nodeHay (role title value : Option String) : String :=
  (String.intercalate " "
    (([role, title, value].filterMap id).filter (fun s => s ≠ ""))).toLower

mutual

/-- `_search_tree` (lines 416-428): pre-order collection of every node whose
haystack contains the (pre-lowercased) query. -/
def search_tree (n : UINode) (query : String) : List Hit :=
  match n with
  | .mk i role title value cs =>
    let rest := search_children cs query
    if strContains (nodeHay role title value) query then
      ⟨i, role, title, value⟩ :: rest
    else rest

/-- The `for child in node children` loop of `_search_tree`. -/
def search_children (ns : List UINode) (query : String) : List Hit :=
  match ns with
  | [] => []
  | c :: rest => search_tree c query ++ search_children rest query

end

/- ---------- the HTTP handlers ---------- -/

/-- Outcome of one handler invocation: response (raised `HTTPException`s are
the `error` case), updated state, event trace. -/
structure HOut where
  res : Except AgentError Resp
  st : AgentState
  trace : List Ev

/-- `POST /session` (lines 215-220): deployment-secret check, then a fresh
session token with expiry `now + SESSION_TOKEN_TTL_SEC`. -/
def create_session (cfg : Config) (agentTok : Option String) (e : Env)
    (st : AgentState) : HOut :=
  match auth cfg agentTok with
  | .error err => ⟨.error err, st, [Ev.gate "auth"]⟩
  | .ok () =>
    ⟨.ok (Resp.ok [("session_token", JVal.n st.ctr),
                   ("expires_in", JVal.n cfg.sessionTTL)]),
     { st with sessions := ainsert st.sessions st.ctr (e.now + cfg.sessionTTL),
               ctr := st.ctr + 1 },
     [Ev.gate "auth"]⟩

/-- `POST /confirm` (lines 223-230): pops a pending confirmation and returns
its action kind; executes nothing. -/
def confirm (cfg : Config) (actionId : Nat) (agentTok : Option String)
    (sessTok : Option Nat) (e : Env) (st : AgentState) : HOut :=
  match auth cfg agentTok with
  | .error err => ⟨.error err, st, [Ev.gate "auth"]⟩
  | .ok () =>
    match session_auth e.now sessTok st with
    | (.error err, st1) => ⟨.error err, st1, [Ev.gate "auth", Ev.gate "session"]⟩
    | (.ok (), st1) =>
      match alookup st1.pending actionId with
      | some a =>
        ⟨.ok (Resp.ok [("action", JVal.s a)]),
         { st1 with pending := aerase st1.pending actionId },
         [Ev.gate "auth", Ev.gate "session"]⟩
      | none => ⟨.error .NotFound, st1, [Ev.gate "auth", Ev.gate "session"]⟩

/-- `POST /click` (lines 233-242). -/
def click (cfg : Config) (x y : Nat) (button : String)
    (agentTok : Option String) (sessTok : Option Nat) (e : Env)
    (st : AgentState) : HOut :=
  match runGates cfg "/click" (some "click") agentTok sessTok e st with
  | ⟨.error err, st1, tr⟩ => ⟨.error err, st1, tr⟩
  | ⟨.ok (), st1, tr⟩ =>
    let payload : Payload :=
      [("x", JVal.n x), ("y", JVal.n y), ("button", JVal.s button)]
    ⟨.ok (Resp.ok []), st1,
     tr ++ [Ev.driver "pyautogui.click" payload,
            Ev.auditLine "click" (redact payload)]⟩

/-- `POST /type` (lines 245-254). -/
def type_text (cfg : Config) (text : String) (interval : Nat)
    (agentTok : Option String) (sessTok : Option Nat) (e : Env)
    (st : AgentState) : HOut :=
  match runGates cfg "/type" (some "type") agentTok sessTok e st with
  | ⟨.error err, st1, tr⟩ => ⟨.error err, st1, tr⟩
  | ⟨.ok (), st1, tr⟩ =>
    let payload : Payload := [("text", JVal.s text), ("interval", JVal.n interval)]
    ⟨.ok (Resp.ok []), st1,
     tr ++ [Ev.driver "pyautogui.typewrite" payload,
            Ev.auditLine "type" (redact payload)]⟩

/-- `POST /press` (lines 257-269): gates, then the confirmation gate for
kind `press`, then `pyautogui.hotkey` and the audit line. -/
def press_keys (cfg : Config) (keys : List String) (actionId : Option Nat)
    (agentTok : Option String) (sessTok : Option Nat) (e : Env)
    (st : AgentState) : HOut :=
  match runGates cfg "/press" (some "press") agentTok sessTok e st with
  | ⟨.error err, st1, tr⟩ => ⟨.error err, st1, tr⟩
  | ⟨.ok (), st1, tr⟩ =>
    match confirm_gate "press" actionId st1 with
    | (some h, st2) => ⟨.ok (Resp.needsConfirmation h), st2, tr⟩
    | (none, st2) =>
      let payload : Payload := [("keys", JVal.strs keys)]
      ⟨.ok (Resp.ok []), st2,
       tr ++ [Ev.driver "pyautogui.hotkey" payload,
              Ev.auditLine "press" (redact payload)]⟩

/-- `POST /open_app` (lines 272-289): gates, the application allowlist
check, the confirmation gate for kind `open_app`, then `open -a` and the
audit line (the driver is modelled as succeeding). -/
def open_app (cfg : Config) (name : String) (actionId : Option Nat)
    (agentTok : Option String) (sessTok : Option Nat) (e : Env)
    (st : AgentState) : HOut :=
  match runGates cfg "/open_app" (some "open_app") agentTok sessTok e st with
  | ⟨.error err, st1, tr⟩ => ⟨.error err, st1, tr⟩
  | ⟨.ok (), st1, tr⟩ =>
    if name ∈ cfg.allowedApps then
      match confirm_gate "open_app" actionId st1 with
      | (some h, st2) => ⟨.ok (Resp.needsConfirmation h), st2, tr⟩
      | (none, st2) =>
        let payload : Payload := [("name", JVal.s name)]
        ⟨.ok (Resp.ok []), st2,
         tr ++ [Ev.driver "open" payload,
                Ev.auditLine "open_app" (redact payload)]⟩
    else ⟨.error .Forbidden, st1, tr⟩

/-- `POST /run_applescript` (lines 292-307). -/
def run_applescript (cfg : Config) (script : String) (actionId : Option Nat)
    (agentTok : Option String) (sessTok : Option Nat) (e : Env)
    (st : AgentState) : HOut :=
  match runGates cfg "/run_applescript" (some "run_applescript") agentTok sessTok e st with
  | ⟨.error err, st1, tr⟩ => ⟨.error err, st1, tr⟩
  | ⟨.ok (), st1, tr⟩ =>
    match confirm_gate "run_applescript" actionId st1 with
    | (some h, st2) => ⟨.ok (Resp.needsConfirmation h), st2, tr⟩
    | (none, st2) =>
      let payload : Payload := [("script", JVal.s script)]
      ⟨.ok (Resp.ok [("output", JVal.s e.scriptOutput)]), st2,
       tr ++ [Ev.driver "osascript" payload,
              Ev.auditLine "run_applescript" (redact payload)]⟩

/-- `GET /screenshot` (lines 310-319): no gate of any kind precedes the
screen-capture driver call. -/
def screenshot (e : Env) (st : AgentState) : HOut :=
  ⟨.ok (Resp.ok [("png_base64", JVal.s e.grabData)]), st,
   [Ev.driver "mss.grab" []]⟩

/-- `POST /shortcuts/run` (lines 322-337). -/
def run_shortcut (cfg : Config) (name : String) (actionId : Option Nat)
    (agentTok : Option String) (sessTok : Option Nat) (e : Env)
    (st : AgentState) : HOut :=
  match runGates cfg "/shortcuts/run" (some "shortcuts_run") agentTok sessTok e st with
  | ⟨.error err, st1, tr⟩ => ⟨.error err, st1, tr⟩
  | ⟨.ok (), st1, tr⟩ =>
    match confirm_gate "shortcuts_run" actionId st1 with
    | (some h, st2) => ⟨.ok (Resp.needsConfirmation h), st2, tr⟩
    | (none, st2) =>
      let payload : Payload := [("name", JVal.s name)]
      ⟨.ok (Resp.ok [("output", JVal.s e.shortcutOutput)]), st2,
       tr ++ [Ev.driver "shortcuts.run" payload,
              Ev.auditLine "shortcuts_run" (redact payload)]⟩

/-- `GET /ui_tree` (lines 340-362): the AppleScript best-effort tree; no
gates precede the `osascript` driver call. -/
def ui_tree (e : Env) (st : AgentState) : HOut :=
  ⟨.ok (Resp.ok [("raw", JVal.s e.scriptOutput)]), st,
   [Ev.driver "osascript" []]⟩

/-- `GET /ui_tree/full` (lines 395-413): gates (no cooldown), availability
check, clear the element registry, fetch the focused application, traverse. -/
def ui_tree_full (cfg : Config) (maxDepth : Nat) (agentTok : Option String)
    (sessTok : Option Nat) (e : Env) (st : AgentState) : HOut :=
  match runGates cfg "/ui_tree/full" none agentTok sessTok e st with
  | ⟨.error err, st1, tr⟩ => ⟨.error err, st1, tr⟩
  | ⟨.ok (), st1, tr⟩ =>
    if e.axAvailable then
      let st2 := { st1 with uiIndex := [] }
      match e.axRoot with
      | none => ⟨.error .NotFound, st2, tr ++ [Ev.driver "AXFocusedApplication" []]⟩
      | some root =>
        let r := ax_to_node root 0 maxDepth st2
        ⟨.ok (Resp.okTree r.1), r.2,
         tr ++ [Ev.driver "AXFocusedApplication" [],
                Ev.auditLine "ui_tree_full" [("max_depth", JVal.n maxDepth)]]⟩
    else ⟨.error .BadRequest, st1, tr⟩

/-- `POST /ui_search` (lines 431-450): like `/ui_tree/full`, then a
substring scan; the audit payload is the raw request dict. -/
def ui_search (cfg : Config) (query : String) (maxDepth : Nat)
    (agentTok : Option String) (sessTok : Option Nat) (e : Env)
    (st : AgentState) : HOut :=
  match runGates cfg "/ui_search" none agentTok sessTok e st with
  | ⟨.error err, st1, tr⟩ => ⟨.error err, st1, tr⟩
  | ⟨.ok (), st1, tr⟩ =>
    if e.axAvailable then
      let st2 := { st1 with uiIndex := [] }
      match e.axRoot with
      | none => ⟨.error .NotFound, st2, tr ++ [Ev.driver "AXFocusedApplication" []]⟩
      | some root =>
        let r := ax_to_node root 0 maxDepth st2
        ⟨.ok (Resp.okHits (search_tree r.1 query.toLower)), r.2,
         tr ++ [Ev.driver "AXFocusedApplication" [],
                Ev.auditLine "ui_search"
                  [("query", JVal.s query), ("max_depth", JVal.n maxDepth)]]⟩
    else ⟨.error .BadRequest, st1, tr⟩

/-- `POST /ui_click` (lines 477-498): gates with cooldown kind `ui_click`,
the confirmation gate with kind `press` (the literal string in the source),
element-id resolution, then `AXPress`. -/
def ui_click (cfg : Config) (elementId : Nat) (actionId : Option Nat)
    (agentTok : Option String) (sessTok : Option Nat) (e : Env)
    (st : AgentState) : HOut :=
  match runGates cfg "/ui_click" (some "ui_click") agentTok sessTok e st with
  | ⟨.error err, st1, tr⟩ => ⟨.error err, st1, tr⟩
  | ⟨.ok (), st1, tr⟩ =>
    match confirm_gate "press" actionId st1 with
    | (some h, st2) => ⟨.ok (Resp.needsConfirmation h), st2, tr⟩
    | (none, st2) =>
      match alookup st2.uiIndex elementId with
      | none => ⟨.error .NotFound, st2, tr⟩
      | some _ =>
        ⟨.ok (Resp.ok []), st2,
         tr ++ [Ev.driver "AXPress" [("element_id", JVal.n elementId)],
                Ev.auditLine "ui_click" [("element_id", JVal.n elementId)]]⟩

/-- `POST /ui_click_text` (lines 453-474): gates, confirmation gate for
kind `press`, then a nested direct call to the `ui_search` handler and,
on success, to `ui_click`.  Neither nested call forwards the session
header: FastAPI's `Header(None)` default object is not a valid session
token, so the nested session check fails. -/
def ui_click_text (cfg : Config) (query : String) (maxDepth : Nat)
    (actionId : Option Nat) (agentTok : Option String) (sessTok : Option Nat)
    (e : Env) (st : AgentState) : HOut :=
  match runGates cfg "/ui_click_text" (some "ui_click") agentTok sessTok e st with
  | ⟨.error err, st1, tr⟩ => ⟨.error err, st1, tr⟩
  | ⟨.ok (), st1, tr⟩ =>
    match confirm_gate "press" actionId st1 with
    | (some h, st2) => ⟨.ok (Resp.needsConfirmation h), st2, tr⟩
    | (none, st2) =>
      match ui_search cfg query maxDepth agentTok none e st2 with
      | ⟨.error err, st3, tr2⟩ => ⟨.error err, st3, tr ++ tr2⟩
      | ⟨.ok (Resp.okHits []), st3, tr2⟩ => ⟨.error .NotFound, st3, tr ++ tr2⟩
      | ⟨.ok (Resp.okHits (h1 :: _)), st3, tr2⟩ =>
        match ui_click cfg h1.id actionId agentTok none e st3 with
        | ⟨r, st4, tr3⟩ => ⟨r, st4, tr ++ tr2 ++ tr3⟩
      | ⟨.ok _, st3, tr2⟩ => ⟨.error .BadRequest, st3, tr ++ tr2⟩

/-- `POST /ui_set` (lines 501-520): gates (no cooldown), resolution, the
missing-value check, then `AXValue` assignment.  The audit payload is the
raw `{element_id, value}` dict, written without `_redact`. -/
def ui_set (cfg : Config) (elementId : Nat) (value : Option String)
    (agentTok : Option String) (sessTok : Option Nat) (e : Env)
    (st : AgentState) : HOut :=
  match runGates cfg "/ui_set" none agentTok sessTok e st with
  | ⟨.error err, st1, tr⟩ => ⟨.error err, st1, tr⟩
  | ⟨.ok (), st1, tr⟩ =>
    match alookup st1.uiIndex elementId with
    | none => ⟨.error .NotFound, st1, tr⟩
    | some _ =>
      match value with
      | none => ⟨.error .BadRequest, st1, tr⟩
      | some v =>
        ⟨.ok (Resp.ok []), st1,
         tr ++ [Ev.driver "AXSetValue"
                  [("element_id", JVal.n elementId), ("value", JVal.s v)],
                Ev.auditLine "ui_set"
                  [("element_id", JVal.n elementId), ("value", JVal.s v)]]⟩

/-- `POST /ui_focus` (lines 523-539). -/
def ui_focus (cfg : Config) (elementId : Nat) (agentTok : Option String)
    (sessTok : Option Nat) (e : Env) (st : AgentState) : HOut :=
  match runGates cfg "/ui_focus" none agentTok sessTok e st with
  | ⟨.error err, st1, tr⟩ => ⟨.error err, st1, tr⟩
  | ⟨.ok (), st1, tr⟩ =>
    match alookup st1.uiIndex elementId with
    | none => ⟨.error .NotFound, st1, tr⟩
    | some _ =>
      ⟨.ok (Resp.ok []), st1,
       tr ++ [Ev.driver "AXFocused" [("element_id", JVal.n elementId)],
              Ev.auditLine "ui_focus" [("element_id", JVal.n elementId)]]⟩

/-- `POST /ui_scroll` (lines 542-558). -/
def ui_scroll (cfg : Config) (elementId : Nat) (agentTok : Option String)
    (sessTok : Option Nat) (e : Env) (st : AgentState) : HOut :=
  match runGates cfg "/ui_scroll" none agentTok sessTok e st with
  | ⟨.error err, st1, tr⟩ => ⟨.error err, st1, tr⟩
  | ⟨.ok (), st1, tr⟩ =>
    match alookup st1.uiIndex elementId with
    | none => ⟨.error .NotFound, st1, tr⟩
    | some _ =>
      ⟨.ok (Resp.ok []), st1,
       tr ++ [Ev.driver "AXScrollDown" [("element_id", JVal.n elementId)],
              Ev.auditLine "ui_scroll" [("element_id", JVal.n elementId)]]⟩

/-- `POST /ocr` (lines 561-578): availability check, then the capture and
recognition driver calls; no gates, no audit line. -/
def ocr (e : Env) (st : AgentState) : HOut :=
  if e.ocrAvailable then
    ⟨.ok (Resp.ok [("text", JVal.s e.ocrText)]), st,
     [Ev.driver "mss.grab" [], Ev.driver "pytesseract" []]⟩
  else ⟨.error .BadRequest, st, []⟩

/-- `GET /cursor` (lines 581-584): no gates. -/
def cursor_position (e : Env) (st : AgentState) : HOut :=
  ⟨.ok (Resp.ok [("x", JVal.n e.cursorPos.1), ("y", JVal.n e.cursorPos.2)]), st,
   [Ev.driver "pyautogui.position" []]⟩

/-- `GET /screen` (lines 587-590): no gates. -/
def screen_size (e : Env) (st : AgentState) : HOut :=
  ⟨.ok (Resp.ok [("width", JVal.n e.screenDim.1), ("height", JVal.n e.screenDim.2)]), st,
   [Ev.driver "pyautogui.size" []]⟩

/- ---------- trace observations ---------- -/

/-- Is the event an external OS-driver call? -/
def isDriverEv : Ev → Bool
  | Ev.driver _ _ => true
  | _ => false

/-- Is the event an audit-log write? -/
def isAuditEv : Ev → Bool
  | Ev.auditLine _ _ => true
  | _ => false

/-- A driver call or an audit write (the two downstream effects the gates
must precede). -/
def isOpEv (ev : Ev) : Bool := isDriverEv ev || isAuditEv ev

/-- Does the trace reach any downstream effect? -/
def hasOp (t : List Ev) : Bool := t.any isOpEv

/-- The gate-check events of a trace, in order. -/
def gateNames (t : List Ev) : List String :=
  t.filterMap fun ev => match ev with
    | Ev.gate n => some n
    | _ => none

/-- Errors produced by the four gates (as opposed to downstream or
domain errors). -/
def isGateErr : AgentError → Bool
  | .Forbidden => true
  | .Unauthorized => true
  | .RateLimited => true
  | .CooldownActive => true
  | _ => false

/-- A handler outcome that is a gate failure. -/
def isGateFailure : Except AgentError Resp → Bool
  | .error err => isGateErr err
  | _ => false

/-- How many gate events a successful prologue emits. -/
def gateLen : Option String → Nat
  | none => 4
  | some _ => 5

/-- The discipline claimed for a gated handler: the canonical gate events
come (in order) before any downstream effect, and a gate failure reaches
no downstream effect. -/
def gateDisciplined (o : HOut) (n : Nat) : Prop :=
  (hasOp o.trace = true → gatesUpTo n <+: o.trace) ∧
  (isGateFailure o.res = true → hasOp o.trace = false)

/- ---------- association-list lemmas ---------- -/

theorem alookup_ainsert {α β : Type} [DecidableEq α]
    (m : List (α × β)) (k : α) (v : β) : alookup (ainsert m k v) k = some v := by
  induction m with
  | nil => simp [ainsert, alookup]
  | cons kv rest ih =>
    obtain ⟨k0, v0⟩ := kv
    by_cases h : k = k0
    · subst h; simp [ainsert, alookup]
    · simp [ainsert, alookup, h, ih]

theorem alookup_ainsert_ne {α β : Type} [DecidableEq α]
    (m : List (α × β)) (k k' : α) (v : β) (h : k' ≠ k) :
    alookup (ainsert m k v) k' = alookup m k' := by
  induction m with
  | nil => simp [ainsert, alookup, h]
  | cons kv rest ih =>
    obtain ⟨k0, v0⟩ := kv
    by_cases h0 : k = k0
    · subst h0; simp [ainsert, alookup, h]
    · by_cases h1 : k' = k0
      · subst h1; simp [ainsert, alookup, h0]
      · simp [ainsert, alookup, h0, h1, ih]

theorem ainsert_fresh {α β : Type} [DecidableEq α]
    (m : List (α × β)) (k : α) (v : β) (h : alookup m k = none) :
    ainsert m k v = m ++ [(k, v)] := by
  induction m with
  | nil => simp [ainsert]
  | cons kv rest ih =>
    obtain ⟨k0, v0⟩ := kv
    by_cases h0 : k = k0
    · subst h0; simp [alookup] at h
    · simp [alookup, h0] at h
      simp [ainsert, h0, ih h]

theorem aerase_ainsert_fresh {α β : Type} [DecidableEq α]
    (m : List (α × β)) (k : α) (v : β) (h : alookup m k = none) :
    aerase (ainsert m k v) k = m := by
  induction m with
  | nil => simp [ainsert, aerase]
  | cons kv rest ih =>
    obtain ⟨k0, v0⟩ := kv
    by_cases h0 : k = k0
    · subst h0; simp [alookup] at h
    · simp [alookup, h0] at h
      simp [ainsert, aerase, h0, ih h]

theorem alookup_append_right {α β : Type} [DecidableEq α]
    (m m' : List (α × β)) (k : α) (h : alookup m k = none) :
    alookup (m ++ m') k = alookup m' k := by
  induction m with
  | nil => simp
  | cons kv rest ih =>
    obtain ⟨k0, v0⟩ := kv
    by_cases h0 : k = k0
    · subst h0; simp [alookup] at h
    · simp [alookup, h0] at h ⊢
      exact ih h

/- ---------- trace lemmas ---------- -/

theorem hasOp_append (a b : List Ev) : hasOp (a ++ b) = (hasOp a || hasOp b) := by
  simp [hasOp]

theorem hasOp_gatesUpTo (n : Nat) : hasOp (gatesUpTo n) = false := by
  rw [hasOp, gatesUpTo]
  induction GATE_ORDER.take n with
  | nil => rfl
  | cons a l ih => simp [isOpEv, isDriverEv, isAuditEv, ih]

/- ---------- gate-prologue lemmas ---------- -/

theorem runGates_no_op (cfg : Config) (path : String) (cd : Option String)
    (at_ : Option String) (sk : Option Nat) (e : Env) (st : AgentState) :
    hasOp (runGates cfg path cd at_ sk e st).trace = false := by
  unfold runGates
  repeat' split
  all_goals exact hasOp_gatesUpTo _

theorem runGates_ok_trace (cfg : Config) (path : String) (cd : Option String)
    (at_ : Option String) (sk : Option Nat) (e : Env) (st : AgentState) :
    (runGates cfg path cd at_ sk e st).res = .ok () →
    (runGates cfg path cd at_ sk e st).trace = gatesUpTo (gateLen cd) := by
  unfold runGates
  repeat' split
  all_goals intro h
  all_goals simp_all [gateLen]

theorem endpoint_allow_err (cfg : Config) (path : String) (err : AgentError) :
    endpoint_allow cfg path = .error err → err = .Forbidden := by
  unfold endpoint_allow
  split <;> intro h <;> simp_all

theorem auth_err (cfg : Config) (tok : Option String) (err : AgentError) :
    auth cfg tok = .error err → err = .Unauthorized := by
  unfold auth
  repeat' split
  all_goals intro h
  all_goals simp_all

theorem session_auth_err (now : Nat) (tok : Option Nat) (st : AgentState)
    (err : AgentError) :
    (session_auth now tok st).1 = .error err → err = .Unauthorized := by
  unfold session_auth
  repeat' split
  all_goals intro h
  all_goals simp_all

theorem rate_limit_err (cfg : Config) (now : Nat) (st : AgentState)
    (err : AgentError) :
    (rate_limit cfg now st).1 = .error err → err = .RateLimited := by
  unfold rate_limit
  dsimp only
  split <;> intro h <;> simp_all

theorem cooldown_err (cfg : Config) (now : Nat) (k : String) (st : AgentState)
    (err : AgentError) :
    (cooldown cfg now k st).1 = .error err → err = .CooldownActive := by
  unfold cooldown
  dsimp only
  split <;> intro h <;> simp_all

theorem session_auth_keep (now : Nat) (tok : Option Nat) (st : AgentState) :
    (session_auth now tok st).2.pending = st.pending ∧
    (session_auth now tok st).2.ctr = st.ctr ∧
    (session_auth now tok st).2.uiIndex = st.uiIndex := by
  unfold session_auth
  repeat' split
  all_goals simp

theorem rate_limit_keep (cfg : Config) (now : Nat) (st : AgentState) :
    (rate_limit cfg now st).2.pending = st.pending ∧
    (rate_limit cfg now st).2.ctr = st.ctr ∧
    (rate_limit cfg now st).2.uiIndex = st.uiIndex := by
  unfold rate_limit
  dsimp only
  split <;> simp

theorem cooldown_keep (cfg : Config) (now : Nat) (k : String) (st : AgentState) :
    (cooldown cfg now k st).2.pending = st.pending ∧
    (cooldown cfg now k st).2.ctr = st.ctr ∧
    (cooldown cfg now k st).2.uiIndex = st.uiIndex := by
  unfold cooldown
  dsimp only
  split <;> simp

theorem session_auth_none (now : Nat) (st : AgentState) :
    session_auth now none st = (.error .Unauthorized, st) := rfl

/-- Full characterization of the gate prologue: every failure is one of the
four gate errors; success emits exactly the canonical gate events; the
prologue never touches the pending-confirmation store, the uuid counter or
the UI element registry; and with no session token it always fails. -/
theorem runGates_spec (cfg : Config) (path : String) (cd : Option String)
    (at_ : Option String) (sk : Option Nat) (e : Env) (st : AgentState) :
    (∀ err, (runGates cfg path cd at_ sk e st).res = .error err →
       isGateErr err = true) ∧
    ((runGates cfg path cd at_ sk e st).res = .ok () →
       (runGates cfg path cd at_ sk e st).trace = gatesUpTo (gateLen cd)) ∧
    (runGates cfg path cd at_ sk e st).st.pending = st.pending ∧
    (runGates cfg path cd at_ sk e st).st.ctr = st.ctr ∧
    (runGates cfg path cd at_ sk e st).st.uiIndex = st.uiIndex ∧
    (sk = none → ∃ err, (runGates cfg path cd at_ sk e st).res = .error err) := by
  unfold runGates
  rcases h1 : endpoint_allow cfg path with err1 | u1
  · try rw [h1]
    have he := endpoint_allow_err cfg path err1 h1
    subst he
    refine ⟨?_, ?_, ?_, ?_, ?_, ?_⟩ <;> simp [isGateErr]
  · try rw [h1]
    obtain ⟨⟩ := u1
    rcases h2 : auth cfg at_ with err2 | u2
    · try rw [h2]
      have he := auth_err cfg at_ err2 h2
      subst he
      refine ⟨?_, ?_, ?_, ?_, ?_, ?_⟩ <;> simp [isGateErr]
    · try rw [h2]
      obtain ⟨⟩ := u2
      obtain ⟨sa1, sa2, sa3⟩ := session_auth_keep e.now sk st
      have herr3 := session_auth_err e.now sk st
      have hnone := session_auth_none e.now st
      rcases h3 : session_auth e.now sk st with ⟨r3, st3⟩
      try rw [h3]
      rw [h3] at sa1 sa2 sa3 herr3
      dsimp only at sa1 sa2 sa3
      cases r3 with
      | error err3 =>
        have he := herr3 err3 rfl
        subst he
        refine ⟨?_, ?_, ?_, ?_, ?_, ?_⟩ <;> simp [isGateErr, sa1, sa2, sa3]
      | ok u3 =>
        obtain ⟨⟩ := u3
        dsimp only
        have hsk : sk ≠ none := by
          intro hn
          subst hn
          rw [hnone] at h3
          simp at h3
        obtain ⟨ra1, ra2, ra3⟩ := rate_limit_keep cfg e.now st3
        have herr4 := rate_limit_err cfg e.now st3
        rcases h4 : rate_limit cfg e.now st3 with ⟨r4, st4⟩
        try rw [h4]
        rw [h4] at ra1 ra2 ra3 herr4
        dsimp only at ra1 ra2 ra3
        cases r4 with
        | error err4 =>
          have he := herr4 err4 rfl
          subst he
          refine ⟨?_, ?_, ?_, ?_, ?_, ?_⟩ <;>
            simp [isGateErr, sa1, sa2, sa3, ra1, ra2, ra3, hsk]
        | ok u4 =>
          obtain ⟨⟩ := u4
          dsimp only
          cases cd with
          | none =>
            refine ⟨?_, ?_, ?_, ?_, ?_, ?_⟩ <;>
              simp [isGateErr, gateLen, sa1, sa2, sa3, ra1, ra2, ra3, hsk]
          | some k =>
            dsimp only
            obtain ⟨ca1, ca2, ca3⟩ := cooldown_keep cfg e.now k st4
            have herr5 := cooldown_err cfg e.now k st4
            rcases h5 : cooldown cfg e.now k st4 with ⟨r5, st5⟩
            try rw [h5]
            rw [h5] at ca1 ca2 ca3 herr5
            dsimp only at ca1 ca2 ca3
            cases r5 with
            | error err5 =>
              have he := herr5 err5 rfl
              subst he
              refine ⟨?_, ?_, ?_, ?_, ?_, ?_⟩ <;>
                simp [isGateErr, gateLen, sa1, sa2, sa3, ra1, ra2, ra3,
                      ca1, ca2, ca3, hsk]
            | ok u5 =>
              obtain ⟨⟩ := u5
              refine ⟨?_, ?_, ?_, ?_, ?_, ?_⟩ <;>
                simp [isGateErr, gateLen, sa1, sa2, sa3, ra1, ra2, ra3,
                      ca1, ca2, ca3, hsk]

/- ---------- confirmation-gate lemmas ---------- -/

theorem confirm_gate_noid (k : String) (hk : k ∈ SENSITIVE_ACTIONS)
    (st : AgentState) :
    confirm_gate k none st =
      (some st.ctr,
       { st with pending := ainsert st.pending st.ctr k, ctr := st.ctr + 1 }) := by
  simp [confirm_gate, require_confirmation, hk]

theorem confirm_gate_hit (k : String) (hk : k ∈ SENSITIVE_ACTIONS) (aid : Nat)
    (st : AgentState) (h : alookup st.pending aid = some k) :
    confirm_gate k (some aid) st =
      (none, { st with pending := aerase st.pending aid }) := by
  simp [confirm_gate, consume_confirmation, hk, h]

theorem confirm_gate_stale (k : String) (hk : k ∈ SENSITIVE_ACTIONS) (aid : Nat)
    (st : AgentState) (h : alookup st.pending aid = none) :
    confirm_gate k (some aid) st =
      (some st.ctr,
       { st with pending := ainsert st.pending st.ctr k, ctr := st.ctr + 1 }) := by
  simp [confirm_gate, consume_confirmation, require_confirmation, hk, h]

theorem confirm_gate_mismatch (k : String) (hk : k ∈ SENSITIVE_ACTIONS)
    (aid : Nat) (st : AgentState) (k' : String)
    (h : alookup st.pending aid = some k') (hne : k' ≠ k) :
    confirm_gate k (some aid) st =
      (some st.ctr,
       { st with pending := ainsert (aerase st.pending aid) st.ctr k,
                 ctr := st.ctr + 1 }) := by
  simp [confirm_gate, consume_confirmation, require_confirmation, hk, h, hne]

/- ---------- the guarded-endpoint pattern ---------- -/

/-- The route path serving each sensitive action kind. -/
def pathOf (k : String) : String :=
  if k = "open_app" then "/open_app"
  else if k = "run_applescript" then "/run_applescript"
  else if k = "shortcuts_run" then "/shortcuts/run"
  else "/press"

/-- Dispatch a sensitive action kind to its endpoint handler (the request
bodies are supplied by the caller and held fixed across retries). -/
def sensitiveCall (k : String) (keys : List String)
    (nm script scName : String) (actionId : Option Nat) (cfg : Config)
    (agentTok : Option String) (sessTok : Option Nat) (e : Env)
    (st : AgentState) : HOut :=
  if k = "open_app" then open_app cfg nm actionId agentTok sessTok e st
  else if k = "run_applescript" then
    run_applescript cfg script actionId agentTok sessTok e st
  else if k = "shortcuts_run" then
    run_shortcut cfg scName actionId agentTok sessTok e st
  else press_keys cfg keys actionId agentTok sessTok e st

/-- The first-call / confirmed-retry / replay behavior of any handler built
from the gate prologue followed by the confirmation-gate pattern (the shape
shared by `/press`, `/open_app`, `/run_applescript` and `/shortcuts/run`). -/
theorem guarded_two_phase
    (k path : String) (hk : k ∈ SENSITIVE_ACTIONS)
    (cfg : Config) (at_ : Option String) (sk : Option Nat)
    (H : Env → Option Nat → AgentState → HOut)
    (pdata : Env → Payload) (dn : String) (dargs : Env → Payload)
    (an : String) (apay : Env → Payload)
    (hH : ∀ e aid st,
       H e aid st =
         match runGates cfg path (some k) at_ sk e st with
         | ⟨.error err, st1, tr⟩ => ⟨.error err, st1, tr⟩
         | ⟨.ok (), st1, tr⟩ =>
           match confirm_gate k aid st1 with
           | (some h2, st2) => ⟨.ok (Resp.needsConfirmation h2), st2, tr⟩
           | (none, st2) =>
             ⟨.ok (Resp.ok (pdata e)), st2,
              tr ++ [Ev.driver dn (dargs e), Ev.auditLine an (apay e)]⟩)
    (e1 e2 e3 : Env) (st0 : AgentState)
    (hfresh : alookup st0.pending st0.ctr = none)
    (hg1 : (runGates cfg path (some k) at_ sk e1 st0).res = .ok ()) :
    (H e1 none st0).res = .ok (Resp.needsConfirmation st0.ctr) ∧
    hasOp (H e1 none st0).trace = false ∧
    alookup (H e1 none st0).st.pending st0.ctr = some k ∧
    (H e1 none st0).st.ctr = st0.ctr + 1 ∧
    ((runGates cfg path (some k) at_ sk e2 (H e1 none st0).st).res = .ok () →
      (H e2 (some st0.ctr) (H e1 none st0).st).res = .ok (Resp.ok (pdata e2)) ∧
      Ev.driver dn (dargs e2)
        ∈ (H e2 (some st0.ctr) (H e1 none st0).st).trace ∧
      alookup (H e2 (some st0.ctr) (H e1 none st0).st).st.pending st0.ctr
        = none ∧
      (H e2 (some st0.ctr) (H e1 none st0).st).st.ctr = st0.ctr + 1 ∧
      ((runGates cfg path (some k) at_ sk e3
          (H e2 (some st0.ctr) (H e1 none st0).st).st).res = .ok () →
        (H e3 (some st0.ctr)
            (H e2 (some st0.ctr) (H e1 none st0).st).st).res
          = .ok (Resp.needsConfirmation (st0.ctr + 1)) ∧
        st0.ctr + 1 ≠ st0.ctr ∧
        hasOp (H e3 (some st0.ctr)
            (H e2 (some st0.ctr) (H e1 none st0).st).st).trace = false ∧
        alookup (H e3 (some st0.ctr)
            (H e2 (some st0.ctr) (H e1 none st0).st).st).st.pending
          (st0.ctr + 1) = some k)) := by
  have hnop1 := runGates_no_op cfg path (some k) at_ sk e1 st0
  obtain ⟨-, -, ge1p, ge1c, -, -⟩ := runGates_spec cfg path (some k) at_ sk e1 st0
  rcases hr1 : runGates cfg path (some k) at_ sk e1 st0 with ⟨r1, stg1, tr1⟩
  rw [hr1] at hg1 ge1p ge1c hnop1
  dsimp only at hg1 ge1p ge1c hnop1
  subst hg1
  have hc1 : H e1 none st0 =
      ⟨.ok (Resp.needsConfirmation stg1.ctr),
       { stg1 with pending := ainsert stg1.pending stg1.ctr k,
                   ctr := stg1.ctr + 1 }, tr1⟩ := by
    rw [hH, hr1]
    dsimp only
    rw [confirm_gate_noid k hk stg1]
  rw [hc1]
  dsimp only
  refine ⟨by rw [ge1c], hnop1, ?_, by rw [ge1c], ?_⟩
  · rw [ge1p, ge1c]
    exact alookup_ainsert st0.pending st0.ctr k
  intro hg2
  have hnop2 := runGates_no_op cfg path (some k) at_ sk e2
    { stg1 with pending := ainsert stg1.pending stg1.ctr k, ctr := stg1.ctr + 1 }
  obtain ⟨-, -, ge2p, ge2c, -, -⟩ := runGates_spec cfg path (some k) at_ sk e2
    { stg1 with pending := ainsert stg1.pending stg1.ctr k, ctr := stg1.ctr + 1 }
  rcases hr2 : runGates cfg path (some k) at_ sk e2
      { stg1 with pending := ainsert stg1.pending stg1.ctr k,
                  ctr := stg1.ctr + 1 } with ⟨r2, stg2, tr2⟩
  rw [hr2] at hg2 ge2p ge2c hnop2
  dsimp only at hg2 ge2p ge2c hnop2
  subst hg2
  rw [ge1p, ge1c] at ge2p
  rw [ge1c] at ge2c
  have hlk2 : alookup stg2.pending st0.ctr = some k := by
    rw [ge2p]
    exact alookup_ainsert st0.pending st0.ctr k
  have hc2 : H e2 (some st0.ctr)
      { stg1 with pending := ainsert stg1.pending stg1.ctr k,
                  ctr := stg1.ctr + 1 } =
      ⟨.ok (Resp.ok (pdata e2)),
       { stg2 with pending := aerase stg2.pending st0.ctr },
       tr2 ++ [Ev.driver dn (dargs e2), Ev.auditLine an (apay e2)]⟩ := by
    rw [hH, hr2]
    dsimp only
    rw [confirm_gate_hit k hk st0.ctr stg2 hlk2]
  rw [hc2]
  dsimp only
  have herase : aerase stg2.pending st0.ctr = st0.pending := by
    rw [ge2p]
    exact aerase_ainsert_fresh st0.pending st0.ctr k hfresh
  refine ⟨rfl, by simp, by rw [herase]; exact hfresh, ge2c, ?_⟩
  intro hg3
  have hnop3 := runGates_no_op cfg path (some k) at_ sk e3
    { stg2 with pending := aerase stg2.pending st0.ctr }
  obtain ⟨-, -, ge3p, ge3c, -, -⟩ := runGates_spec cfg path (some k) at_ sk e3
    { stg2 with pending := aerase stg2.pending st0.ctr }
  rcases hr3 : runGates cfg path (some k) at_ sk e3
      { stg2 with pending := aerase stg2.pending st0.ctr } with ⟨r3, stg3, tr3⟩
  rw [hr3] at hg3 ge3p ge3c hnop3
  dsimp only at hg3 ge3p ge3c hnop3
  subst hg3
  rw [herase] at ge3p
  rw [ge2c] at ge3c
  have hlk3 : alookup stg3.pending st0.ctr = none := by
    rw [ge3p]
    exact hfresh
  have hc3 : H e3 (some st0.ctr)
      { stg2 with pending := aerase stg2.pending st0.ctr } =
      ⟨.ok (Resp.needsConfirmation stg3.ctr),
       { stg3 with pending := ainsert stg3.pending stg3.ctr k,
                   ctr := stg3.ctr + 1 }, tr3⟩ := by
    rw [hH, hr3]
    dsimp only
    rw [confirm_gate_stale k hk st0.ctr stg3 hlk3]
  rw [hc3]
  dsimp only
  refine ⟨by rw [ge3c], by omega, hnop3, ?_⟩
  rw [ge3c]
  exact alookup_ainsert stg3.pending (st0.ctr + 1) k

/- ---------- concrete fixtures for witnesses ---------- -/

/-- A benign configuration: no deployment secret, empty endpoint allowlist,
default rate cap and TTL, no cooldowns, one allowed application. -/
def cfg0 : Config :=
  { agentToken := none, sessionTTL := 3600, ratePerMinute := 60,
    cooldowns := [], allowedApps := ["Terminal"], endpointAllowlist := [] }

/-- A concrete environment: time 5, a one-node accessibility tree. -/
def env0 : Env :=
  { now := 5, axAvailable := true,
    axRoot := some (AXElem.node (some "AXButton") (some "OK") none []),
    ocrAvailable := true, scriptOutput := "out", shortcutOutput := "sout",
    grabData := "png", ocrText := "txt", cursorPos := (1, 2),
    screenDim := (800, 600) }

/-- A state holding one valid session token `0` (expiry 1000). -/
def st0c : AgentState :=
  { pending := [], sessions := [(0, 1000)], lastAction := [], reqTimes := [],
    uiIndex := [], ctr := 1 }

/- ---------- the four dedicated sensitive endpoints ---------- -/

/-- On the four dedicated sensitive endpoints (`/press`, `/open_app`,
`/run_applescript`, `/shortcuts/run`), a call without a confirmation handle
does not execute the action (no driver event) and returns a
needs-confirmation outcome carrying a fresh handle stored as pending for
that kind; the identical call retried with that exact handle executes the
action; and a further retry with the now-consumed handle returns
needs-confirmation again with a new, distinct handle — each handle
satisfies at most one guarded call. -/
theorem sensitive_endpoints_two_phase
    (k : String) (hk : k ∈ SENSITIVE_ACTIONS)
    (keys : List String) (nm script scName : String)
    (cfg : Config) (at_ : Option String) (sk : Option Nat)
    (e1 e2 e3 : Env) (st0 : AgentState)
    (happ : nm ∈ cfg.allowedApps)
    (hfresh : alookup st0.pending st0.ctr = none)
    (hg1 : (runGates cfg (pathOf k) (some k) at_ sk e1 st0).res = .ok ()) :
    (sensitiveCall k keys nm script scName none cfg at_ sk e1 st0).res
      = .ok (Resp.needsConfirmation st0.ctr) ∧
    hasOp (sensitiveCall k keys nm script scName none cfg at_ sk e1 st0).trace
      = false ∧
    alookup (sensitiveCall k keys nm script scName none cfg at_ sk e1
        st0).st.pending st0.ctr = some k ∧
    ((runGates cfg (pathOf k) (some k) at_ sk e2
        (sensitiveCall k keys nm script scName none cfg at_ sk e1 st0).st).res
          = .ok () →
      (∃ p, (sensitiveCall k keys nm script scName (some st0.ctr) cfg at_ sk e2
          (sensitiveCall k keys nm script scName none cfg at_ sk e1
            st0).st).res = .ok (Resp.ok p)) ∧
      (∃ dn args, Ev.driver dn args ∈
        (sensitiveCall k keys nm script scName (some st0.ctr) cfg at_ sk e2
          (sensitiveCall k keys nm script scName none cfg at_ sk e1
            st0).st).trace) ∧
      alookup (sensitiveCall k keys nm script scName (some st0.ctr) cfg at_ sk
          e2 (sensitiveCall k keys nm script scName none cfg at_ sk e1
            st0).st).st.pending st0.ctr = none ∧
      ((runGates cfg (pathOf k) (some k) at_ sk e3
          (sensitiveCall k keys nm script scName (some st0.ctr) cfg at_ sk e2
            (sensitiveCall k keys nm script scName none cfg at_ sk e1
              st0).st).st).res = .ok () →
        (sensitiveCall k keys nm script scName (some st0.ctr) cfg at_ sk e3
          (sensitiveCall k keys nm script scName (some st0.ctr) cfg at_ sk e2
            (sensitiveCall k keys nm script scName none cfg at_ sk e1
              st0).st).st).res
          = .ok (Resp.needsConfirmation (st0.ctr + 1)) ∧
        st0.ctr + 1 ≠ st0.ctr ∧
        hasOp (sensitiveCall k keys nm script scName (some st0.ctr) cfg at_ sk
          e3 (sensitiveCall k keys nm script scName (some st0.ctr) cfg at_ sk
            e2 (sensitiveCall k keys nm script scName none cfg at_ sk e1
              st0).st).st).trace = false ∧
        alookup (sensitiveCall k keys nm script scName (some st0.ctr) cfg at_
          sk e3 (sensitiveCall k keys nm script scName (some st0.ctr) cfg at_
            sk e2 (sensitiveCall k keys nm script scName none cfg at_ sk e1
              st0).st).st).st.pending (st0.ctr + 1) = some k)) := by
  have hmem := hk
  simp only [SENSITIVE_ACTIONS, List.mem_cons, List.mem_singleton,
    List.not_mem_nil, or_false] at hmem
  rcases hmem with rfl | rfl | rfl | rfl
  · -- run_applescript
    obtain ⟨a1, a2, a3, a4, rest⟩ := guarded_two_phase "run_applescript"
      "/run_applescript" hk cfg at_ sk
      (fun e aid st =>
        sensitiveCall "run_applescript" keys nm script scName aid cfg at_ sk e st)
      (fun e => [("output", JVal.s e.scriptOutput)]) "osascript"
      (fun _ => [("script", JVal.s script)]) "run_applescript"
      (fun _ => redact [("script", JVal.s script)])
      (fun e aid st => rfl) e1 e2 e3 st0 hfresh hg1
    refine ⟨a1, a2, a3, ?_⟩
    intro hg2
    obtain ⟨b1, b2, b3, b4, rest2⟩ := rest hg2
    exact ⟨⟨_, b1⟩, ⟨_, _, b2⟩, b3, fun hg3 => rest2 hg3⟩
  · -- open_app
    obtain ⟨a1, a2, a3, a4, rest⟩ := guarded_two_phase "open_app"
      "/open_app" hk cfg at_ sk
      (fun e aid st =>
        sensitiveCall "open_app" keys nm script scName aid cfg at_ sk e st)
      (fun _ => []) "open" (fun _ => [("name", JVal.s nm)]) "open_app"
      (fun _ => redact [("name", JVal.s nm)])
      (fun e aid st => by
        show open_app cfg nm aid at_ sk e st = _
        unfold open_app
        rcases runGates cfg "/open_app" (some "open_app") at_ sk e st
          with ⟨r, stg, tr⟩
        cases r with
        | error err => rfl
        | ok u =>
          obtain ⟨⟩ := u
          dsimp only
          rw [if_pos happ]) e1 e2 e3 st0 hfresh hg1
    refine ⟨a1, a2, a3, ?_⟩
    intro hg2
    obtain ⟨b1, b2, b3, b4, rest2⟩ := rest hg2
    exact ⟨⟨_, b1⟩, ⟨_, _, b2⟩, b3, fun hg3 => rest2 hg3⟩
  · -- press
    obtain ⟨a1, a2, a3, a4, rest⟩ := guarded_two_phase "press"
      "/press" hk cfg at_ sk
      (fun e aid st =>
        sensitiveCall "press" keys nm script scName aid cfg at_ sk e st)
      (fun _ => []) "pyautogui.hotkey" (fun _ => [("keys", JVal.strs keys)])
      "press" (fun _ => redact [("keys", JVal.strs keys)])
      (fun e aid st => rfl) e1 e2 e3 st0 hfresh hg1
    refine ⟨a1, a2, a3, ?_⟩
    intro hg2
    obtain ⟨b1, b2, b3, b4, rest2⟩ := rest hg2
    exact ⟨⟨_, b1⟩, ⟨_, _, b2⟩, b3, fun hg3 => rest2 hg3⟩
  · -- shortcuts_run
    obtain ⟨a1, a2, a3, a4, rest⟩ := guarded_two_phase "shortcuts_run"
      "/shortcuts/run" hk cfg at_ sk
      (fun e aid st =>
        sensitiveCall "shortcuts_run" keys nm script scName aid cfg at_ sk e st)
      (fun e => [("output", JVal.s e.shortcutOutput)]) "shortcuts.run"
      (fun _ => [("name", JVal.s scName)]) "shortcuts_run"
      (fun _ => redact [("name", JVal.s scName)])
      (fun e aid st => rfl) e1 e2 e3 st0 hfresh hg1
    refine ⟨a1, a2, a3, ?_⟩
    intro hg2
    obtain ⟨b1, b2, b3, b4, rest2⟩ := rest hg2
    exact ⟨⟨_, b1⟩, ⟨_, _, b2⟩, b3, fun hg3 => rest2 hg3⟩

/- ---------- per-handler gate discipline ---------- -/

theorem click_gates (cfg : Config) (x y : Nat) (b : String)
    (at_ : Option String) (sk : Option Nat) (e : Env) (st : AgentState) :
    gateDisciplined (click cfg x y b at_ sk e st) 5 ∧
    ((runGates cfg "/click" (some "click") at_ sk e st).res = .ok () →
      gatesUpTo 5 <+: (click cfg x y b at_ sk e st).trace) := by
  obtain ⟨gerr, gtr, -, -, -, -⟩ := runGates_spec cfg "/click" (some "click") at_ sk e st
  have hnop := runGates_no_op cfg "/click" (some "click") at_ sk e st
  unfold click
  rcases hr : runGates cfg "/click" (some "click") at_ sk e st with ⟨r, stg, tr⟩
  rw [hr] at gerr gtr hnop
  dsimp only at gerr gtr hnop
  cases r with
  | error err =>
    refine ⟨⟨fun hop => ?_, fun _ => hnop⟩, fun hok => ?_⟩
    · rw [hnop] at hop
      cases hop
    · cases hok
  | ok u =>
    obtain ⟨⟩ := u
    have htr := gtr rfl
    subst htr
    refine ⟨⟨fun _ => ?_, fun hgf => ?_⟩, fun _ => ?_⟩
    · exact List.prefix_append _ _
    · simp [isGateFailure, isGateErr] at hgf
    · exact List.prefix_append _ _

theorem type_text_gates (cfg : Config) (text : String) (itv : Nat)
    (at_ : Option String) (sk : Option Nat) (e : Env) (st : AgentState) :
    gateDisciplined (type_text cfg text itv at_ sk e st) 5 ∧
    ((runGates cfg "/type" (some "type") at_ sk e st).res = .ok () →
      gatesUpTo 5 <+: (type_text cfg text itv at_ sk e st).trace) := by
  obtain ⟨gerr, gtr, -, -, -, -⟩ := runGates_spec cfg "/type" (some "type") at_ sk e st
  have hnop := runGates_no_op cfg "/type" (some "type") at_ sk e st
  unfold type_text
  rcases hr : runGates cfg "/type" (some "type") at_ sk e st with ⟨r, stg, tr⟩
  rw [hr] at gerr gtr hnop
  dsimp only at gerr gtr hnop
  cases r with
  | error err =>
    refine ⟨⟨fun hop => ?_, fun _ => hnop⟩, fun hok => ?_⟩
    · rw [hnop] at hop
      cases hop
    · cases hok
  | ok u =>
    obtain ⟨⟩ := u
    have htr := gtr rfl
    subst htr
    refine ⟨⟨fun _ => ?_, fun hgf => ?_⟩, fun _ => ?_⟩
    · exact List.prefix_append _ _
    · simp [isGateFailure, isGateErr] at hgf
    · exact List.prefix_append _ _


theorem press_keys_gates (cfg : Config) (keys : List String) (aid : Option Nat)
    (at_ : Option String) (sk : Option Nat) (e : Env) (st : AgentState) :
    gateDisciplined (press_keys cfg keys aid at_ sk e st) 5 ∧
    ((runGates cfg "/press" (some "press") at_ sk e st).res = .ok () →
      gatesUpTo 5 <+: (press_keys cfg keys aid at_ sk e st).trace) := by
  obtain ⟨gerr, gtr, -, -, -, -⟩ :=
    runGates_spec cfg "/press" (some "press") at_ sk e st
  have hnop := runGates_no_op cfg "/press" (some "press") at_ sk e st
  unfold press_keys
  rcases hr : runGates cfg "/press" (some "press") at_ sk e st with ⟨r, stg, tr⟩
  rw [hr] at gerr gtr hnop
  dsimp only at gerr gtr hnop
  cases r with
  | error err =>
    refine ⟨⟨fun hop => ?_, fun _ => hnop⟩, fun hok => ?_⟩
    · simp [hnop] at hop
    · cases hok
  | ok u =>
    obtain ⟨⟩ := u
    have htr := gtr rfl
    subst htr
    simp only [gateLen] at hnop ⊢
    rcases hcg : confirm_gate "press" aid stg with ⟨o, st2⟩
    cases o with
    | some h2 =>
      dsimp only
      refine ⟨⟨fun hop => ?_, fun hgf => ?_⟩, fun _ => List.prefix_rfl⟩
      · simp [hnop] at hop
      · exact hnop
    | none =>
      dsimp only
      refine ⟨⟨fun _ => List.prefix_append _ _, fun hgf => ?_⟩,
        fun _ => List.prefix_append _ _⟩
      simp [isGateFailure, isGateErr] at hgf

theorem open_app_gates (cfg : Config) (nm : String) (aid : Option Nat)
    (at_ : Option String) (sk : Option Nat) (e : Env) (st : AgentState) :
    gateDisciplined (open_app cfg nm aid at_ sk e st) 5 ∧
    ((runGates cfg "/open_app" (some "open_app") at_ sk e st).res = .ok () →
      gatesUpTo 5 <+: (open_app cfg nm aid at_ sk e st).trace) := by
  obtain ⟨gerr, gtr, -, -, -, -⟩ :=
    runGates_spec cfg "/open_app" (some "open_app") at_ sk e st
  have hnop := runGates_no_op cfg "/open_app" (some "open_app") at_ sk e st
  unfold open_app
  rcases hr : runGates cfg "/open_app" (some "open_app") at_ sk e st with ⟨r, stg, tr⟩
  rw [hr] at gerr gtr hnop
  dsimp only at gerr gtr hnop
  cases r with
  | error err =>
    refine ⟨⟨fun hop => ?_, fun _ => hnop⟩, fun hok => ?_⟩
    · simp [hnop] at hop
    · cases hok
  | ok u =>
    obtain ⟨⟩ := u
    have htr := gtr rfl
    subst htr
    simp only [gateLen] at hnop ⊢
    by_cases hA : nm ∈ cfg.allowedApps
    · rw [if_pos hA]
      rcases hcg : confirm_gate "open_app" aid stg with ⟨o, st2⟩
      cases o with
      | some h2 =>
        dsimp only
        refine ⟨⟨fun hop => ?_, fun hgf => ?_⟩, fun _ => List.prefix_rfl⟩
        · simp [hnop] at hop
        · exact hnop
      | none =>
        dsimp only
        refine ⟨⟨fun _ => List.prefix_append _ _, fun hgf => ?_⟩,
          fun _ => List.prefix_append _ _⟩
        simp [isGateFailure, isGateErr] at hgf
    · rw [if_neg hA]
      refine ⟨⟨fun hop => ?_, fun _ => hnop⟩, fun _ => List.prefix_rfl⟩
      simp [hnop] at hop

theorem run_applescript_gates (cfg : Config) (script : String) (aid : Option Nat)
    (at_ : Option String) (sk : Option Nat) (e : Env) (st : AgentState) :
    gateDisciplined (run_applescript cfg script aid at_ sk e st) 5 ∧
    ((runGates cfg "/run_applescript" (some "run_applescript") at_ sk e st).res = .ok () →
      gatesUpTo 5 <+: (run_applescript cfg script aid at_ sk e st).trace) := by
  obtain ⟨gerr, gtr, -, -, -, -⟩ :=
    runGates_spec cfg "/run_applescript" (some "run_applescript") at_ sk e st
  have hnop := runGates_no_op cfg "/run_applescript" (some "run_applescript") at_ sk e st
  unfold run_applescript
  rcases hr : runGates cfg "/run_applescript" (some "run_applescript") at_ sk e st with ⟨r, stg, tr⟩
  rw [hr] at gerr gtr hnop
  dsimp only at gerr gtr hnop
  cases r with
  | error err =>
    refine ⟨⟨fun hop => ?_, fun _ => hnop⟩, fun hok => ?_⟩
    · simp [hnop] at hop
    · cases hok
  | ok u =>
    obtain ⟨⟩ := u
    have htr := gtr rfl
    subst htr
    simp only [gateLen] at hnop ⊢
    rcases hcg : confirm_gate "run_applescript" aid stg with ⟨o, st2⟩
    cases o with
    | some h2 =>
      dsimp only
      refine ⟨⟨fun hop => ?_, fun hgf => ?_⟩, fun _ => List.prefix_rfl⟩
      · simp [hnop] at hop
      · exact hnop
    | none =>
      dsimp only
      refine ⟨⟨fun _ => List.prefix_append _ _, fun hgf => ?_⟩,
        fun _ => List.prefix_append _ _⟩
      simp [isGateFailure, isGateErr] at hgf

theorem run_shortcut_gates (cfg : Config) (nm : String) (aid : Option Nat)
    (at_ : Option String) (sk : Option Nat) (e : Env) (st : AgentState) :
    gateDisciplined (run_shortcut cfg nm aid at_ sk e st) 5 ∧
    ((runGates cfg "/shortcuts/run" (some "shortcuts_run") at_ sk e st).res = .ok () →
      gatesUpTo 5 <+: (run_shortcut cfg nm aid at_ sk e st).trace) := by
  obtain ⟨gerr, gtr, -, -, -, -⟩ :=
    runGates_spec cfg "/shortcuts/run" (some "shortcuts_run") at_ sk e st
  have hnop := runGates_no_op cfg "/shortcuts/run" (some "shortcuts_run") at_ sk e st
  unfold run_shortcut
  rcases hr : runGates cfg "/shortcuts/run" (some "shortcuts_run") at_ sk e st with ⟨r, stg, tr⟩
  rw [hr] at gerr gtr hnop
  dsimp only at gerr gtr hnop
  cases r with
  | error err =>
    refine ⟨⟨fun hop => ?_, fun _ => hnop⟩, fun hok => ?_⟩
    · simp [hnop] at hop
    · cases hok
  | ok u =>
    obtain ⟨⟩ := u
    have htr := gtr rfl
    subst htr
    simp only [gateLen] at hnop ⊢
    rcases hcg : confirm_gate "shortcuts_run" aid stg with ⟨o, st2⟩
    cases o with
    | some h2 =>
      dsimp only
      refine ⟨⟨fun hop => ?_, fun hgf => ?_⟩, fun _ => List.prefix_rfl⟩
      · simp [hnop] at hop
      · exact hnop
    | none =>
      dsimp only
      refine ⟨⟨fun _ => List.prefix_append _ _, fun hgf => ?_⟩,
        fun _ => List.prefix_append _ _⟩
      simp [isGateFailure, isGateErr] at hgf

theorem ui_tree_full_gates (cfg : Config) (md : Nat) (at_ : Option String)
    (sk : Option Nat) (e : Env) (st : AgentState) :
    gateDisciplined (ui_tree_full cfg md at_ sk e st) 4 ∧
    ((runGates cfg "/ui_tree/full" none at_ sk e st).res = .ok () →
      gatesUpTo 4 <+: (ui_tree_full cfg md at_ sk e st).trace) := by
  obtain ⟨gerr, gtr, -, -, -, -⟩ :=
    runGates_spec cfg "/ui_tree/full" none at_ sk e st
  have hnop := runGates_no_op cfg "/ui_tree/full" none at_ sk e st
  unfold ui_tree_full
  rcases hr : runGates cfg "/ui_tree/full" none at_ sk e st with ⟨r, stg, tr⟩
  rw [hr] at gerr gtr hnop
  dsimp only at gerr gtr hnop
  cases r with
  | error err =>
    refine ⟨⟨fun hop => ?_, fun _ => hnop⟩, fun hok => ?_⟩
    · simp [hnop] at hop
    · cases hok
  | ok u =>
    obtain ⟨⟩ := u
    have htr := gtr rfl
    subst htr
    simp only [gateLen] at hnop ⊢
    by_cases hax : e.axAvailable = true
    · rw [if_pos hax]
      rcases e.axRoot with - | root
      · dsimp only
        refine ⟨⟨fun _ => List.prefix_append _ _, fun hgf => ?_⟩,
          fun _ => List.prefix_append _ _⟩
        simp [isGateFailure, isGateErr] at hgf
      · dsimp only
        refine ⟨⟨fun _ => List.prefix_append _ _, fun hgf => ?_⟩,
          fun _ => List.prefix_append _ _⟩
        simp [isGateFailure, isGateErr] at hgf
    · rw [if_neg hax]
      refine ⟨⟨fun hop => ?_, fun _ => hnop⟩, fun _ => List.prefix_rfl⟩
      simp [hnop] at hop

theorem ui_search_gates (cfg : Config) (q : String) (md : Nat)
    (at_ : Option String) (sk : Option Nat) (e : Env) (st : AgentState) :
    gateDisciplined (ui_search cfg q md at_ sk e st) 4 ∧
    ((runGates cfg "/ui_search" none at_ sk e st).res = .ok () →
      gatesUpTo 4 <+: (ui_search cfg q md at_ sk e st).trace) := by
  obtain ⟨gerr, gtr, -, -, -, -⟩ :=
    runGates_spec cfg "/ui_search" none at_ sk e st
  have hnop := runGates_no_op cfg "/ui_search" none at_ sk e st
  unfold ui_search
  rcases hr : runGates cfg "/ui_search" none at_ sk e st with ⟨r, stg, tr⟩
  rw [hr] at gerr gtr hnop
  dsimp only at gerr gtr hnop
  cases r with
  | error err =>
    refine ⟨⟨fun hop => ?_, fun _ => hnop⟩, fun hok => ?_⟩
    · simp [hnop] at hop
    · cases hok
  | ok u =>
    obtain ⟨⟩ := u
    have htr := gtr rfl
    subst htr
    simp only [gateLen] at hnop ⊢
    by_cases hax : e.axAvailable = true
    · rw [if_pos hax]
      rcases e.axRoot with - | root
      · dsimp only
        refine ⟨⟨fun _ => List.prefix_append _ _, fun hgf => ?_⟩,
          fun _ => List.prefix_append _ _⟩
        simp [isGateFailure, isGateErr] at hgf
      · dsimp only
        refine ⟨⟨fun _ => List.prefix_append _ _, fun hgf => ?_⟩,
          fun _ => List.prefix_append _ _⟩
        simp [isGateFailure, isGateErr] at hgf
    · rw [if_neg hax]
      refine ⟨⟨fun hop => ?_, fun _ => hnop⟩, fun _ => List.prefix_rfl⟩
      simp [hnop] at hop

theorem ui_click_gates (cfg : Config) (eid : Nat) (aid : Option Nat)
    (at_ : Option String) (sk : Option Nat) (e : Env) (st : AgentState) :
    gateDisciplined (ui_click cfg eid aid at_ sk e st) 5 ∧
    ((runGates cfg "/ui_click" (some "ui_click") at_ sk e st).res = .ok () →
      gatesUpTo 5 <+: (ui_click cfg eid aid at_ sk e st).trace) := by
  obtain ⟨gerr, gtr, -, -, -, -⟩ :=
    runGates_spec cfg "/ui_click" (some "ui_click") at_ sk e st
  have hnop := runGates_no_op cfg "/ui_click" (some "ui_click") at_ sk e st
  unfold ui_click
  rcases hr : runGates cfg "/ui_click" (some "ui_click") at_ sk e st
    with ⟨r, stg, tr⟩
  rw [hr] at gerr gtr hnop
  dsimp only at gerr gtr hnop
  cases r with
  | error err =>
    refine ⟨⟨fun hop => ?_, fun _ => hnop⟩, fun hok => ?_⟩
    · simp [hnop] at hop
    · cases hok
  | ok u =>
    obtain ⟨⟩ := u
    have htr := gtr rfl
    subst htr
    simp only [gateLen] at hnop ⊢
    rcases hcg : confirm_gate "press" aid stg with ⟨o, st2⟩
    cases o with
    | some h2 =>
      dsimp only
      refine ⟨⟨fun hop => ?_, fun hgf => ?_⟩, fun _ => List.prefix_rfl⟩
      · simp [hnop] at hop
      · exact hnop
    | none =>
      dsimp only
      rcases alookup st2.uiIndex eid with - | el
      · dsimp only
        refine ⟨⟨fun hop => ?_, fun hgf => ?_⟩, fun _ => List.prefix_rfl⟩
        · simp [hnop] at hop
        · simp [isGateFailure, isGateErr] at hgf
      · dsimp only
        refine ⟨⟨fun _ => List.prefix_append _ _, fun hgf => ?_⟩,
          fun _ => List.prefix_append _ _⟩
        simp [isGateFailure, isGateErr] at hgf

theorem ui_set_gates (cfg : Config) (eid : Nat) (v : Option String)
    (at_ : Option String) (sk : Option Nat) (e : Env) (st : AgentState) :
    gateDisciplined (ui_set cfg eid v at_ sk e st) 4 ∧
    ((runGates cfg "/ui_set" none at_ sk e st).res = .ok () →
      gatesUpTo 4 <+: (ui_set cfg eid v at_ sk e st).trace) := by
  obtain ⟨gerr, gtr, -, -, -, -⟩ := runGates_spec cfg "/ui_set" none at_ sk e st
  have hnop := runGates_no_op cfg "/ui_set" none at_ sk e st
  unfold ui_set
  rcases hr : runGates cfg "/ui_set" none at_ sk e st with ⟨r, stg, tr⟩
  rw [hr] at gerr gtr hnop
  dsimp only at gerr gtr hnop
  cases r with
  | error err =>
    refine ⟨⟨fun hop => ?_, fun _ => hnop⟩, fun hok => ?_⟩
    · simp [hnop] at hop
    · cases hok
  | ok u =>
    obtain ⟨⟩ := u
    have htr := gtr rfl
    subst htr
    simp only [gateLen] at hnop ⊢
    rcases alookup stg.uiIndex eid with - | el
    · dsimp only
      refine ⟨⟨fun hop => ?_, fun hgf => ?_⟩, fun _ => List.prefix_rfl⟩
      · simp [hnop] at hop
      · simp [isGateFailure, isGateErr] at hgf
    · dsimp only
      cases v with
      | none =>
        dsimp only
        refine ⟨⟨fun hop => ?_, fun hgf => ?_⟩, fun _ => List.prefix_rfl⟩
        · simp [hnop] at hop
        · simp [isGateFailure, isGateErr] at hgf
      | some v0 =>
        dsimp only
        refine ⟨⟨fun _ => List.prefix_append _ _, fun hgf => ?_⟩,
          fun _ => List.prefix_append _ _⟩
        simp [isGateFailure, isGateErr] at hgf

theorem ui_focus_gates (cfg : Config) (eid : Nat) (at_ : Option String)
    (sk : Option Nat) (e : Env) (st : AgentState) :
    gateDisciplined (ui_focus cfg eid at_ sk e st) 4 ∧
    ((runGates cfg "/ui_focus" none at_ sk e st).res = .ok () →
      gatesUpTo 4 <+: (ui_focus cfg eid at_ sk e st).trace) := by
  obtain ⟨gerr, gtr, -, -, -, -⟩ := runGates_spec cfg "/ui_focus" none at_ sk e st
  have hnop := runGates_no_op cfg "/ui_focus" none at_ sk e st
  unfold ui_focus
  rcases hr : runGates cfg "/ui_focus" none at_ sk e st with ⟨r, stg, tr⟩
  rw [hr] at gerr gtr hnop
  dsimp only at gerr gtr hnop
  cases r with
  | error err =>
    refine ⟨⟨fun hop => ?_, fun _ => hnop⟩, fun hok => ?_⟩
    · simp [hnop] at hop
    · cases hok
  | ok u =>
    obtain ⟨⟩ := u
    have htr := gtr rfl
    subst htr
    simp only [gateLen] at hnop ⊢
    rcases alookup stg.uiIndex eid with - | el
    · dsimp only
      refine ⟨⟨fun hop => ?_, fun hgf => ?_⟩, fun _ => List.prefix_rfl⟩
      · simp [hnop] at hop
      · simp [isGateFailure, isGateErr] at hgf
    · dsimp only
      refine ⟨⟨fun _ => List.prefix_append _ _, fun hgf => ?_⟩,
        fun _ => List.prefix_append _ _⟩
      simp [isGateFailure, isGateErr] at hgf

theorem ui_scroll_gates (cfg : Config) (eid : Nat) (at_ : Option String)
    (sk : Option Nat) (e : Env) (st : AgentState) :
    gateDisciplined (ui_scroll cfg eid at_ sk e st) 4 ∧
    ((runGates cfg "/ui_scroll" none at_ sk e st).res = .ok () →
      gatesUpTo 4 <+: (ui_scroll cfg eid at_ sk e st).trace) := by
  obtain ⟨gerr, gtr, -, -, -, -⟩ := runGates_spec cfg "/ui_scroll" none at_ sk e st
  have hnop := runGates_no_op cfg "/ui_scroll" none at_ sk e st
  unfold ui_scroll
  rcases hr : runGates cfg "/ui_scroll" none at_ sk e st with ⟨r, stg, tr⟩
  rw [hr] at gerr gtr hnop
  dsimp only at gerr gtr hnop
  cases r with
  | error err =>
    refine ⟨⟨fun hop => ?_, fun _ => hnop⟩, fun hok => ?_⟩
    · simp [hnop] at hop
    · cases hok
  | ok u =>
    obtain ⟨⟩ := u
    have htr := gtr rfl
    subst htr
    simp only [gateLen] at hnop ⊢
    rcases alookup stg.uiIndex eid with - | el
    · dsimp only
      refine ⟨⟨fun hop => ?_, fun hgf => ?_⟩, fun _ => List.prefix_rfl⟩
      · simp [hnop] at hop
      · simp [isGateFailure, isGateErr] at hgf
    · dsimp only
      refine ⟨⟨fun _ => List.prefix_append _ _, fun hgf => ?_⟩,
        fun _ => List.prefix_append _ _⟩
      simp [isGateFailure, isGateErr] at hgf

/-- The nested `ui_search` call made by `ui_click_text` carries no session
token, so it always fails at a gate, with no downstream effect. -/
theorem ui_search_nosess (cfg : Config) (q : String) (md : Nat)
    (at_ : Option String) (e : Env) (st : AgentState) :
    (∃ err, (ui_search cfg q md at_ none e st).res = .error err ∧
       isGateErr err = true) ∧
    hasOp (ui_search cfg q md at_ none e st).trace = false ∧
    (ui_search cfg q md at_ none e st).st.pending = st.pending := by
  obtain ⟨gerr, -, gp, -, -, hne⟩ := runGates_spec cfg "/ui_search" none at_ none e st
  have hnop := runGates_no_op cfg "/ui_search" none at_ none e st
  obtain ⟨err, herr⟩ := hne rfl
  unfold ui_search
  rcases hr : runGates cfg "/ui_search" none at_ none e st with ⟨r, stg, tr⟩
  rw [hr] at gerr herr hnop gp
  dsimp only at gerr herr hnop gp
  subst herr
  dsimp only
  exact ⟨⟨err, rfl, gerr err rfl⟩, hnop, gp⟩

theorem ui_click_text_gates (cfg : Config) (q : String) (md : Nat)
    (aid : Option Nat) (at_ : Option String) (sk : Option Nat) (e : Env)
    (st : AgentState) :
    gateDisciplined (ui_click_text cfg q md aid at_ sk e st) 5 ∧
    ((runGates cfg "/ui_click_text" (some "ui_click") at_ sk e st).res
        = .ok () →
      gatesUpTo 5 <+: (ui_click_text cfg q md aid at_ sk e st).trace) := by
  obtain ⟨gerr, gtr, -, -, -, -⟩ :=
    runGates_spec cfg "/ui_click_text" (some "ui_click") at_ sk e st
  have hnop := runGates_no_op cfg "/ui_click_text" (some "ui_click") at_ sk e st
  unfold ui_click_text
  rcases hr : runGates cfg "/ui_click_text" (some "ui_click") at_ sk e st
    with ⟨r, stg, tr⟩
  rw [hr] at gerr gtr hnop
  dsimp only at gerr gtr hnop
  cases r with
  | error err =>
    refine ⟨⟨fun hop => ?_, fun _ => hnop⟩, fun hok => ?_⟩
    · simp [hnop] at hop
    · cases hok
  | ok u =>
    obtain ⟨⟩ := u
    have htr := gtr rfl
    subst htr
    simp only [gateLen] at hnop ⊢
    rcases hcg : confirm_gate "press" aid stg with ⟨o, st2⟩
    cases o with
    | some h2 =>
      dsimp only
      refine ⟨⟨fun hop => ?_, fun hgf => ?_⟩, fun _ => List.prefix_rfl⟩
      · simp [hnop] at hop
      · exact hnop
    | none =>
      dsimp only
      obtain ⟨⟨err, hres, hgerr⟩, hnops, -⟩ := ui_search_nosess cfg q md at_ e st2
      rcases hn : ui_search cfg q md at_ none e st2 with ⟨rs, st3, tr2⟩
      rw [hn] at hres hnops
      dsimp only at hres hnops
      subst hres
      dsimp only
      refine ⟨⟨fun _ => List.prefix_append _ _, fun _ => ?_⟩,
        fun _ => List.prefix_append _ _⟩
      rw [hasOp_append, hnop, hnops]
      rfl

/- ---------- C1 ---------- -/

/-- The two-phase protocol breaks on `/ui_click_text`: the first call
without a handle defers with a fresh pending handle of kind `press`, but
the identical call retried with that exact handle consumes the handle and
then always fails at a gate without executing anything — the nested
`/ui_search` call is issued without the session header, so session
validation rejects it before any driver call. -/
theorem ui_click_text_two_phase (cfg : Config) (q : String) (md : Nat)
    (at_ : Option String) (sk : Option Nat) (e1 e2 : Env) (st0 : AgentState)
    (hfresh : alookup st0.pending st0.ctr = none)
    (hg1 : (runGates cfg "/ui_click_text" (some "ui_click") at_ sk e1 st0).res
        = .ok ()) :
    (ui_click_text cfg q md none at_ sk e1 st0).res
      = .ok (Resp.needsConfirmation st0.ctr) ∧
    hasOp (ui_click_text cfg q md none at_ sk e1 st0).trace = false ∧
    alookup (ui_click_text cfg q md none at_ sk e1 st0).st.pending st0.ctr
      = some "press" ∧
    ((runGates cfg "/ui_click_text" (some "ui_click") at_ sk e2
        (ui_click_text cfg q md none at_ sk e1 st0).st).res = .ok () →
      alookup (ui_click_text cfg q md (some st0.ctr) at_ sk e2
          (ui_click_text cfg q md none at_ sk e1 st0).st).st.pending st0.ctr
        = none ∧
      (∃ err, (ui_click_text cfg q md (some st0.ctr) at_ sk e2
          (ui_click_text cfg q md none at_ sk e1 st0).st).res = .error err ∧
        isGateErr err = true) ∧
      hasOp (ui_click_text cfg q md (some st0.ctr) at_ sk e2
          (ui_click_text cfg q md none at_ sk e1 st0).st).trace = false) := by
  have hnop1 := runGates_no_op cfg "/ui_click_text" (some "ui_click") at_ sk e1 st0
  obtain ⟨-, -, ge1p, ge1c, -, -⟩ :=
    runGates_spec cfg "/ui_click_text" (some "ui_click") at_ sk e1 st0
  rcases hr1 : runGates cfg "/ui_click_text" (some "ui_click") at_ sk e1 st0
    with ⟨r1, stg1, tr1⟩
  rw [hr1] at hg1 ge1p ge1c hnop1
  dsimp only at hg1 ge1p ge1c hnop1
  subst hg1
  have hc1 : ui_click_text cfg q md none at_ sk e1 st0 =
      ⟨.ok (Resp.needsConfirmation stg1.ctr),
       { stg1 with pending := ainsert stg1.pending stg1.ctr "press",
                   ctr := stg1.ctr + 1 }, tr1⟩ := by
    unfold ui_click_text
    rw [hr1]
    dsimp only
    rw [confirm_gate_noid "press" (by decide) stg1]
  rw [hc1]
  dsimp only
  refine ⟨by rw [ge1c], hnop1, ?_, ?_⟩
  · rw [ge1p, ge1c]
    exact alookup_ainsert st0.pending st0.ctr "press"
  intro hg2
  have hnop2 := runGates_no_op cfg "/ui_click_text" (some "ui_click") at_ sk e2
    { stg1 with pending := ainsert stg1.pending stg1.ctr "press",
                ctr := stg1.ctr + 1 }
  obtain ⟨-, -, ge2p, ge2c, -, -⟩ :=
    runGates_spec cfg "/ui_click_text" (some "ui_click") at_ sk e2
      { stg1 with pending := ainsert stg1.pending stg1.ctr "press",
                  ctr := stg1.ctr + 1 }
  rcases hr2 : runGates cfg "/ui_click_text" (some "ui_click") at_ sk e2
      { stg1 with pending := ainsert stg1.pending stg1.ctr "press",
                  ctr := stg1.ctr + 1 } with ⟨r2, stg2, tr2⟩
  rw [hr2] at hg2 ge2p ge2c hnop2
  dsimp only at hg2 ge2p ge2c hnop2
  subst hg2
  rw [ge1p, ge1c] at ge2p
  have hlk2 : alookup stg2.pending st0.ctr = some "press" := by
    rw [ge2p]
    exact alookup_ainsert st0.pending st0.ctr "press"
  obtain ⟨⟨err, hres, hgerr⟩, hnops, hpend⟩ := ui_search_nosess cfg q md at_ e2
    { stg2 with pending := aerase stg2.pending st0.ctr }
  have herase : aerase stg2.pending st0.ctr = st0.pending := by
    rw [ge2p]
    exact aerase_ainsert_fresh st0.pending st0.ctr "press" hfresh
  have hc2 : ui_click_text cfg q md (some st0.ctr) at_ sk e2
      { stg1 with pending := ainsert stg1.pending stg1.ctr "press",
                  ctr := stg1.ctr + 1 } =
      ⟨.error err,
       (ui_search cfg q md at_ none e2
         { stg2 with pending := aerase stg2.pending st0.ctr }).st,
       tr2 ++ (ui_search cfg q md at_ none e2
         { stg2 with pending := aerase stg2.pending st0.ctr }).trace⟩ := by
    unfold ui_click_text
    rw [hr2]
    dsimp only
    rw [confirm_gate_hit "press" (by decide) st0.ctr stg2 hlk2]
    dsimp only
    rcases hn : ui_search cfg q md at_ none e2
        { stg2 with pending := aerase stg2.pending st0.ctr } with ⟨rs, st3, tr3⟩
    rw [hn] at hres
    dsimp only at hres
    subst hres
    rfl
  rw [hc2]
  dsimp only
  refine ⟨?_, ⟨err, rfl, hgerr⟩, ?_⟩
  · rw [hpend]
    dsimp only
    rw [herase]
    exact hfresh
  · rw [hasOp_append, hnop2, hnops]
    rfl

/-- **C1 (amended).** For every sensitive action kind, a guarded call with
no confirmation handle does not execute the action and returns a
needs-confirmation outcome carrying a fresh handle stored as pending; on
the four dedicated endpoints (`/press`, `/open_app`, `/run_applescript`,
`/shortcuts/run`) the identical call retried with that exact handle
executes the action, and a further retry with the now-consumed handle
defers again with a new, distinct handle (each handle satisfies at most one
guarded call); but on `/ui_click_text` — also guarded, with pending kind
`press` — the retry with the exact fresh handle consumes the handle and
then always fails at a gate with no driver event: the nested `/ui_search`
call omits the session header, so the action never executes there. -/
theorem C1_two_phase_corrected
    (k : String) (hk : k ∈ SENSITIVE_ACTIONS)
    (keys : List String) (nm script scName : String) (q : String) (md : Nat)
    (cfg : Config) (at_ : Option String) (sk : Option Nat)
    (e1 e2 e3 : Env) (st0 : AgentState)
    (happ : nm ∈ cfg.allowedApps)
    (hfresh : alookup st0.pending st0.ctr = none)
    (hg1 : (runGates cfg (pathOf k) (some k) at_ sk e1 st0).res = .ok ())
    (hgt1 : (runGates cfg "/ui_click_text" (some "ui_click") at_ sk e1
        st0).res = .ok ()) :
    ((sensitiveCall k keys nm script scName none cfg at_ sk e1 st0).res
      = .ok (Resp.needsConfirmation st0.ctr) ∧
    hasOp (sensitiveCall k keys nm script scName none cfg at_ sk e1 st0).trace
      = false ∧
    alookup (sensitiveCall k keys nm script scName none cfg at_ sk e1
        st0).st.pending st0.ctr = some k ∧
    ((runGates cfg (pathOf k) (some k) at_ sk e2
        (sensitiveCall k keys nm script scName none cfg at_ sk e1 st0).st).res
          = .ok () →
      (∃ p, (sensitiveCall k keys nm script scName (some st0.ctr) cfg at_ sk e2
          (sensitiveCall k keys nm script scName none cfg at_ sk e1
            st0).st).res = .ok (Resp.ok p)) ∧
      (∃ dn args, Ev.driver dn args ∈
        (sensitiveCall k keys nm script scName (some st0.ctr) cfg at_ sk e2
          (sensitiveCall k keys nm script scName none cfg at_ sk e1
            st0).st).trace) ∧
      alookup (sensitiveCall k keys nm script scName (some st0.ctr) cfg at_ sk
          e2 (sensitiveCall k keys nm script scName none cfg at_ sk e1
            st0).st).st.pending st0.ctr = none ∧
      ((runGates cfg (pathOf k) (some k) at_ sk e3
          (sensitiveCall k keys nm script scName (some st0.ctr) cfg at_ sk e2
            (sensitiveCall k keys nm script scName none cfg at_ sk e1
              st0).st).st).res = .ok () →
        (sensitiveCall k keys nm script scName (some st0.ctr) cfg at_ sk e3
          (sensitiveCall k keys nm script scName (some st0.ctr) cfg at_ sk e2
            (sensitiveCall k keys nm script scName none cfg at_ sk e1
              st0).st).st).res
          = .ok (Resp.needsConfirmation (st0.ctr + 1)) ∧
        st0.ctr + 1 ≠ st0.ctr ∧
        hasOp (sensitiveCall k keys nm script scName (some st0.ctr) cfg at_ sk
          e3 (sensitiveCall k keys nm script scName (some st0.ctr) cfg at_ sk
            e2 (sensitiveCall k keys nm script scName none cfg at_ sk e1
              st0).st).st).trace = false ∧
        alookup (sensitiveCall k keys nm script scName (some st0.ctr) cfg at_
          sk e3 (sensitiveCall k keys nm script scName (some st0.ctr) cfg at_
            sk e2 (sensitiveCall k keys nm script scName none cfg at_ sk e1
              st0).st).st).st.pending (st0.ctr + 1) = some k))) ∧
    ((ui_click_text cfg q md none at_ sk e1 st0).res
      = .ok (Resp.needsConfirmation st0.ctr) ∧
    hasOp (ui_click_text cfg q md none at_ sk e1 st0).trace = false ∧
    alookup (ui_click_text cfg q md none at_ sk e1 st0).st.pending st0.ctr
      = some "press" ∧
    ((runGates cfg "/ui_click_text" (some "ui_click") at_ sk e2
        (ui_click_text cfg q md none at_ sk e1 st0).st).res = .ok () →
      alookup (ui_click_text cfg q md (some st0.ctr) at_ sk e2
          (ui_click_text cfg q md none at_ sk e1 st0).st).st.pending st0.ctr
        = none ∧
      (∃ err, (ui_click_text cfg q md (some st0.ctr) at_ sk e2
          (ui_click_text cfg q md none at_ sk e1 st0).st).res = .error err ∧
        isGateErr err = true) ∧
      hasOp (ui_click_text cfg q md (some st0.ctr) at_ sk e2
          (ui_click_text cfg q md none at_ sk e1 st0).st).trace = false)) :=
  ⟨sensitive_endpoints_two_phase k hk keys nm script scName cfg at_ sk
      e1 e2 e3 st0 happ hfresh hg1,
   ui_click_text_two_phase cfg q md at_ sk e1 e2 st0 hfresh hgt1⟩

/-- **C1 counterexample.** At a concrete input the claimed property fails
on the sensitive click-by-text call: the first `/ui_click_text` call
without a handle defers with fresh handle `1` stored as pending for kind
`press`, but the identical call retried with that exact handle `1` does
not execute the action — it consumes the handle (the pending entry is
gone afterwards) and then fails `Unauthorized` with no driver event,
because the nested `/ui_search` call is made without the session header.
The retried call with the exact handle therefore does not execute the
action, refuting the claim. -/
theorem C1_counterexample :
    (ui_click_text cfg0 "ok" 3 none none (some 0) env0 st0c).res
      = .ok (Resp.needsConfirmation 1) ∧
    alookup (ui_click_text cfg0 "ok" 3 none none (some 0) env0
        st0c).st.pending 1 = some "press" ∧
    (ui_click_text cfg0 "ok" 3 (some 1) none (some 0) env0
        (ui_click_text cfg0 "ok" 3 none none (some 0) env0 st0c).st).res
      = .error .Unauthorized ∧
    hasOp (ui_click_text cfg0 "ok" 3 (some 1) none (some 0) env0
        (ui_click_text cfg0 "ok" 3 none none (some 0) env0 st0c).st).trace
      = false ∧
    alookup (ui_click_text cfg0 "ok" 3 (some 1) none (some 0) env0
        (ui_click_text cfg0 "ok" 3 none none (some 0) env0
          st0c).st).st.pending 1 = none :=
  ⟨rfl, rfl, rfl, rfl, rfl⟩

/-- Witness for the amended C1 at a concrete input: kind `press` on the
dedicated endpoint defers with a fresh handle, and the `/ui_click_text`
retry carrying the exact handle produces no driver event. -/
theorem C1_corrected_witness :
    (sensitiveCall "press" ["cmd"] "Terminal" "say 1" "Shot" none cfg0 none
        (some 0) env0 st0c).res = .ok (Resp.needsConfirmation st0c.ctr) ∧
    hasOp (ui_click_text cfg0 "ok" 3 (some st0c.ctr) none (some 0) env0
        (ui_click_text cfg0 "ok" 3 none none (some 0) env0 st0c).st).trace
      = false :=
  ⟨(C1_two_phase_corrected "press" (by decide) ["cmd"] "Terminal" "say 1"
      "Shot" "ok" 3 cfg0 none (some 0) env0 env0 env0 st0c (by decide) rfl
      rfl rfl).1.1,
   ((C1_two_phase_corrected "press" (by decide) ["cmd"] "Terminal" "say 1"
      "Shot" "ok" 3 cfg0 none (some 0) env0 env0 env0 st0c (by decide) rfl
      rfl rfl).2.2.2.2 rfl).2.2⟩

/- ---------- the ungated handlers ---------- -/

theorem screenshot_ungated (e : Env) (st : AgentState) :
    gateNames (screenshot e st).trace = [] := rfl

theorem ui_tree_ungated (e : Env) (st : AgentState) :
    gateNames (ui_tree e st).trace = [] := rfl

theorem cursor_position_ungated (e : Env) (st : AgentState) :
    gateNames (cursor_position e st).trace = [] := rfl

theorem screen_size_ungated (e : Env) (st : AgentState) :
    gateNames (screen_size e st).trace = [] := rfl

theorem ocr_ungated (e : Env) (st : AgentState) :
    gateNames (ocr e st).trace = [] := by
  unfold ocr
  split <;> rfl

/- ---------- C2 ---------- -/

/-- **C2 counterexample.** The `screenshot` handler — an inbound action
request that is neither session creation nor confirm — performs its
OS-driver call without passing through any gate: its trace holds a driver
event and no gate event whatsoever, refuting the claim that every inbound
action request passes through the endpoint filter, session validation, rate
limiter and cooldown tracker before the driver call.  (`ocr`, `ui_tree`,
`cursor_position` and `screen_size` behave the same way.) -/
theorem C2_counterexample :
    hasOp (screenshot env0 st0c).trace = true ∧
    gateNames (screenshot env0 st0c).trace = [] ∧
    (screenshot env0 st0c).res
      = .ok (Resp.ok [("png_base64", JVal.s "png")]) :=
  ⟨rfl, rfl, rfl⟩

/-- **C2 (amended).** Every *gated* operation (`/click`, `/type`, `/press`,
`/open_app`, `/run_applescript`, `/shortcuts/run`, `/ui_tree/full`,
`/ui_search`, `/ui_click_text`, `/ui_click`, `/ui_set`, `/ui_focus`,
`/ui_scroll`) passes through the endpoint policy filter, then (agent-token)
auth, then session validation, then the global rate limiter — and, on the
endpoints that have one, the cooldown tracker — before any OS-driver call
and before any audit write: whenever the trace reaches a downstream effect
the canonical gate events form a prefix of it, and a gate failure never
lets a driver call or an audit write happen.  `screenshot`, `ocr`,
`ui_tree`, `cursor` and `screen` run no gates at all (see the
counterexample). -/
theorem C2_gate_pipeline :
    (∀ cfg x y b at_ sk e st,
       gateDisciplined (click cfg x y b at_ sk e st) 5) ∧
    (∀ cfg text itv at_ sk e st,
       gateDisciplined (type_text cfg text itv at_ sk e st) 5) ∧
    (∀ cfg keys aid at_ sk e st,
       gateDisciplined (press_keys cfg keys aid at_ sk e st) 5) ∧
    (∀ cfg nm aid at_ sk e st,
       gateDisciplined (open_app cfg nm aid at_ sk e st) 5) ∧
    (∀ cfg script aid at_ sk e st,
       gateDisciplined (run_applescript cfg script aid at_ sk e st) 5) ∧
    (∀ cfg nm aid at_ sk e st,
       gateDisciplined (run_shortcut cfg nm aid at_ sk e st) 5) ∧
    (∀ cfg md at_ sk e st,
       gateDisciplined (ui_tree_full cfg md at_ sk e st) 4) ∧
    (∀ cfg q md at_ sk e st,
       gateDisciplined (ui_search cfg q md at_ sk e st) 4) ∧
    (∀ cfg q md aid at_ sk e st,
       gateDisciplined (ui_click_text cfg q md aid at_ sk e st) 5) ∧
    (∀ cfg eid aid at_ sk e st,
       gateDisciplined (ui_click cfg eid aid at_ sk e st) 5) ∧
    (∀ cfg eid v at_ sk e st,
       gateDisciplined (ui_set cfg eid v at_ sk e st) 4) ∧
    (∀ cfg eid at_ sk e st,
       gateDisciplined (ui_focus cfg eid at_ sk e st) 4) ∧
    (∀ cfg eid at_ sk e st,
       gateDisciplined (ui_scroll cfg eid at_ sk e st) 4) :=
  ⟨fun cfg x y b at_ sk e st => (click_gates cfg x y b at_ sk e st).1,
   fun cfg text itv at_ sk e st => (type_text_gates cfg text itv at_ sk e st).1,
   fun cfg keys aid at_ sk e st => (press_keys_gates cfg keys aid at_ sk e st).1,
   fun cfg nm aid at_ sk e st => (open_app_gates cfg nm aid at_ sk e st).1,
   fun cfg script aid at_ sk e st =>
     (run_applescript_gates cfg script aid at_ sk e st).1,
   fun cfg nm aid at_ sk e st => (run_shortcut_gates cfg nm aid at_ sk e st).1,
   fun cfg md at_ sk e st => (ui_tree_full_gates cfg md at_ sk e st).1,
   fun cfg q md at_ sk e st => (ui_search_gates cfg q md at_ sk e st).1,
   fun cfg q md aid at_ sk e st =>
     (ui_click_text_gates cfg q md aid at_ sk e st).1,
   fun cfg eid aid at_ sk e st => (ui_click_gates cfg eid aid at_ sk e st).1,
   fun cfg eid v at_ sk e st => (ui_set_gates cfg eid v at_ sk e st).1,
   fun cfg eid at_ sk e st => (ui_focus_gates cfg eid at_ sk e st).1,
   fun cfg eid at_ sk e st => (ui_scroll_gates cfg eid at_ sk e st).1⟩

/-- Witness for C2 (amended): a concrete `/click` call whose gates all pass
reaches the driver, and its trace indeed begins with the five gate events. -/
theorem C2_witness :
    gatesUpTo 5 <+: (click cfg0 1 2 "left" none (some 0) env0 st0c).trace :=
  (C2_gate_pipeline.1 cfg0 1 2 "left" none (some 0) env0 st0c).1 rfl

/- ---------- C6 ---------- -/

theorem filter_replicate_of_pos {α : Type} (p : α → Bool) (n : Nat) (a : α)
    (h : p a = true) :
    List.filter p (List.replicate n a) = List.replicate n a := by
  induction n with
  | zero => rfl
  | succ m ih => simp [List.replicate_succ, List.filter_cons, h, ih]

theorem filter_replicate_of_neg {α : Type} (p : α → Bool) (n : Nat) (a : α)
    (h : p a = false) :
    List.filter p (List.replicate n a) = [] := by
  induction n with
  | zero => rfl
  | succ m ih => simp [List.replicate_succ, List.filter_cons, h, ih]

/-- **C6 counterexample.** The claim says the global rate check runs exactly
once per inbound request regardless of action kind; the `screenshot`
handler performs its driver call without ever running it (zero times). -/
theorem C6_counterexample :
    Ev.gate "rate" ∉ (screenshot env0 st0c).trace ∧
    hasOp (screenshot env0 st0c).trace = true :=
  ⟨by decide, rfl⟩

/-- **C6 (amended).** The global rate check prunes timestamps outside the
trailing 60-second window, fails with `RateLimited` exactly when the
remaining count is at least the per-minute cap (keeping the pruned list),
and otherwise appends exactly the current timestamp and succeeds.  It is
reached by every gated endpoint whose gate prologue succeeds — so with cap
`N` the `(N+1)`-th gated request within a 60-second window fails, and
capacity returns once the earliest timestamp leaves the window — but it
never runs on `screenshot`, `ocr`, `ui_tree`, `cursor` or `screen`. -/
theorem C6_rate_limiter :
    (∀ cfg now st,
      ((rate_limit cfg now st).1 = .error .RateLimited ↔
        cfg.ratePerMinute
          ≤ (st.reqTimes.filter (fun u => now - u < 60)).length) ∧
      ((rate_limit cfg now st).1 = .ok () →
        (rate_limit cfg now st).2.reqTimes
          = st.reqTimes.filter (fun u => now - u < 60) ++ [now]) ∧
      ((rate_limit cfg now st).1 = .error .RateLimited →
        (rate_limit cfg now st).2.reqTimes
          = st.reqTimes.filter (fun u => now - u < 60))) ∧
    (∀ cfg t st, 0 < cfg.ratePerMinute →
      st.reqTimes = List.replicate cfg.ratePerMinute t →
      (rate_limit cfg t st).1 = .error .RateLimited) ∧
    (∀ cfg t now2 st, st.reqTimes = List.replicate cfg.ratePerMinute t →
      t + 60 ≤ now2 → 0 < cfg.ratePerMinute →
      (rate_limit cfg now2 st).1 = .ok ()) ∧
    (∀ cfg x y b at_ sk e st,
      (runGates cfg "/click" (some "click") at_ sk e st).res = .ok () →
      Ev.gate "rate" ∈ (click cfg x y b at_ sk e st).trace) ∧
    (∀ cfg text itv at_ sk e st,
      (runGates cfg "/type" (some "type") at_ sk e st).res = .ok () →
      Ev.gate "rate" ∈ (type_text cfg text itv at_ sk e st).trace) ∧
    (∀ cfg keys aid at_ sk e st,
      (runGates cfg "/press" (some "press") at_ sk e st).res = .ok () →
      Ev.gate "rate" ∈ (press_keys cfg keys aid at_ sk e st).trace) ∧
    (∀ cfg nm aid at_ sk e st,
      (runGates cfg "/open_app" (some "open_app") at_ sk e st).res = .ok () →
      Ev.gate "rate" ∈ (open_app cfg nm aid at_ sk e st).trace) ∧
    (∀ cfg script aid at_ sk e st,
      (runGates cfg "/run_applescript" (some "run_applescript") at_ sk e
        st).res = .ok () →
      Ev.gate "rate" ∈ (run_applescript cfg script aid at_ sk e st).trace) ∧
    (∀ cfg nm aid at_ sk e st,
      (runGates cfg "/shortcuts/run" (some "shortcuts_run") at_ sk e st).res
        = .ok () →
      Ev.gate "rate" ∈ (run_shortcut cfg nm aid at_ sk e st).trace) ∧
    (∀ cfg md at_ sk e st,
      (runGates cfg "/ui_tree/full" none at_ sk e st).res = .ok () →
      Ev.gate "rate" ∈ (ui_tree_full cfg md at_ sk e st).trace) ∧
    (∀ cfg q md at_ sk e st,
      (runGates cfg "/ui_search" none at_ sk e st).res = .ok () →
      Ev.gate "rate" ∈ (ui_search cfg q md at_ sk e st).trace) ∧
    (∀ cfg q md aid at_ sk e st,
      (runGates cfg "/ui_click_text" (some "ui_click") at_ sk e st).res
        = .ok () →
      Ev.gate "rate" ∈ (ui_click_text cfg q md aid at_ sk e st).trace) ∧
    (∀ cfg eid aid at_ sk e st,
      (runGates cfg "/ui_click" (some "ui_click") at_ sk e st).res = .ok () →
      Ev.gate "rate" ∈ (ui_click cfg eid aid at_ sk e st).trace) ∧
    (∀ cfg eid v at_ sk e st,
      (runGates cfg "/ui_set" none at_ sk e st).res = .ok () →
      Ev.gate "rate" ∈ (ui_set cfg eid v at_ sk e st).trace) ∧
    (∀ cfg eid at_ sk e st,
      (runGates cfg "/ui_focus" none at_ sk e st).res = .ok () →
      Ev.gate "rate" ∈ (ui_focus cfg eid at_ sk e st).trace) ∧
    (∀ cfg eid at_ sk e st,
      (runGates cfg "/ui_scroll" none at_ sk e st).res = .ok () →
      Ev.gate "rate" ∈ (ui_scroll cfg eid at_ sk e st).trace) ∧
    (∀ e st, Ev.gate "rate" ∉ (screenshot e st).trace) ∧
    (∀ e st, Ev.gate "rate" ∉ (ocr e st).trace) ∧
    (∀ e st, Ev.gate "rate" ∉ (ui_tree e st).trace) ∧
    (∀ e st, Ev.gate "rate" ∉ (cursor_position e st).trace) ∧
    (∀ e st, Ev.gate "rate" ∉ (screen_size e st).trace) := by
  have hmem : Ev.gate "rate" ∈ gatesUpTo 4 := by decide
  have hmem5 : Ev.gate "rate" ∈ gatesUpTo 5 := by decide
  refine ⟨?_, ?_, ?_, ?_, ?_, ?_, ?_, ?_, ?_, ?_, ?_, ?_, ?_, ?_, ?_, ?_,
    ?_, ?_, ?_, ?_, ?_⟩
  · intro cfg now st
    by_cases hc : cfg.ratePerMinute
        ≤ (st.reqTimes.filter (fun u => now - u < 60)).length
    · refine ⟨?_, ?_, ?_⟩ <;> simp [rate_limit, hc]
    · refine ⟨?_, ?_, ?_⟩ <;> simp [rate_limit, hc]
  · intro cfg t st hpos hrt
    have hfil : List.filter (fun u => decide (t - u < 60))
        (List.replicate cfg.ratePerMinute t) = List.replicate cfg.ratePerMinute t :=
      filter_replicate_of_pos _ _ _ (by simp)
    simp [rate_limit, hrt, hfil]
  · intro cfg t now2 st hrt h60 hpos
    have hfil : List.filter (fun u => decide (now2 - u < 60))
        (List.replicate cfg.ratePerMinute t) = [] :=
      filter_replicate_of_neg _ _ _ (by simp; omega)
    simp [rate_limit, hrt, hfil]
    rw [if_neg (by omega)]
  · intro cfg x y b at_ sk e st hok
    exact ((click_gates cfg x y b at_ sk e st).2 hok).subset hmem5
  · intro cfg text itv at_ sk e st hok
    exact ((type_text_gates cfg text itv at_ sk e st).2 hok).subset hmem5
  · intro cfg keys aid at_ sk e st hok
    exact ((press_keys_gates cfg keys aid at_ sk e st).2 hok).subset hmem5
  · intro cfg nm aid at_ sk e st hok
    exact ((open_app_gates cfg nm aid at_ sk e st).2 hok).subset hmem5
  · intro cfg script aid at_ sk e st hok
    exact ((run_applescript_gates cfg script aid at_ sk e st).2 hok).subset hmem5
  · intro cfg nm aid at_ sk e st hok
    exact ((run_shortcut_gates cfg nm aid at_ sk e st).2 hok).subset hmem5
  · intro cfg md at_ sk e st hok
    exact ((ui_tree_full_gates cfg md at_ sk e st).2 hok).subset hmem
  · intro cfg q md at_ sk e st hok
    exact ((ui_search_gates cfg q md at_ sk e st).2 hok).subset hmem
  · intro cfg q md aid at_ sk e st hok
    exact ((ui_click_text_gates cfg q md aid at_ sk e st).2 hok).subset hmem5
  · intro cfg eid aid at_ sk e st hok
    exact ((ui_click_gates cfg eid aid at_ sk e st).2 hok).subset hmem5
  · intro cfg eid v at_ sk e st hok
    exact ((ui_set_gates cfg eid v at_ sk e st).2 hok).subset hmem
  · intro cfg eid at_ sk e st hok
    exact ((ui_focus_gates cfg eid at_ sk e st).2 hok).subset hmem
  · intro cfg eid at_ sk e st hok
    exact ((ui_scroll_gates cfg eid at_ sk e st).2 hok).subset hmem
  · intro e st
    simp [screenshot]
  · intro e st
    unfold ocr
    split <;> simp
  · intro e st
    simp [ui_tree]
  · intro e st
    simp [cursor_position]
  · intro e st
    simp [screen_size]

/-- Witness for C6 (amended): with cap 2, a third request at the same
instant is rejected, and a request 60 seconds later is accepted again. -/
theorem C6_witness :
    (rate_limit { cfg0 with ratePerMinute := 2 } 5
        { st0c with reqTimes := List.replicate 2 5 }).1
      = .error .RateLimited ∧
    (rate_limit { cfg0 with ratePerMinute := 2 } 65
        { st0c with reqTimes := List.replicate 2 5 }).1 = .ok () :=
  ⟨(C6_rate_limiter.2.1 { cfg0 with ratePerMinute := 2 } 5
      { st0c with reqTimes := List.replicate 2 5 } (by decide) rfl),
   (C6_rate_limiter.2.2.1 { cfg0 with ratePerMinute := 2 } 5 65
      { st0c with reqTimes := List.replicate 2 5 } rfl (by decide) (by decide))⟩

/- ---------- C7 ---------- -/

theorem cooldown_sets (cfg : Config) (now : Nat) (k : String)
    (st : AgentState) :
    (cooldown cfg now k st).1 = .ok () →
    alookup (cooldown cfg now k st).2.lastAction k = some now := by
  unfold cooldown
  dsimp only
  split
  · intro h
    simp at h
  · intro _
    exact alookup_ainsert st.lastAction k now

theorem runGates_cooldown_mark (cfg : Config) (path k : String)
    (at_ : Option String) (sk : Option Nat) (e : Env) (st : AgentState) :
    (runGates cfg path (some k) at_ sk e st).res = .ok () →
    alookup (runGates cfg path (some k) at_ sk e st).st.lastAction k
      = some e.now := by
  unfold runGates
  rcases h1 : endpoint_allow cfg path with err1 | u1
  · intro h
    simp at h
  · obtain ⟨⟩ := u1
    rcases h2 : auth cfg at_ with err2 | u2
    · intro h
      simp at h
    · obtain ⟨⟩ := u2
      rcases h3 : session_auth e.now sk st with ⟨r3, st3⟩
      cases r3 with
      | error err3 =>
        intro h
        simp at h
      | ok u3 =>
        obtain ⟨⟩ := u3
        dsimp only
        rcases h4 : rate_limit cfg e.now st3 with ⟨r4, st4⟩
        cases r4 with
        | error err4 =>
          intro h
          simp at h
        | ok u4 =>
          obtain ⟨⟩ := u4
          dsimp only
          have hset := cooldown_sets cfg e.now k st4
          rcases h5 : cooldown cfg e.now k st4 with ⟨r5, st5⟩
          rw [h5] at hset
          dsimp only at hset
          cases r5 with
          | error err5 =>
            intro h
            simp at h
          | ok u5 =>
            obtain ⟨⟩ := u5
            intro _
            exact hset rfl

/-- **C7.** The cooldown check for an action kind fails with
`CooldownActive` exactly when a positive cooldown is configured for the
kind and the time since its recorded last invocation (default 0) is below
that cooldown; on passing it immediately records `now` as the kind's last
invocation — in the gate prologue this happens before any driver event —
and kinds with no configured cooldown always pass. -/
theorem C7_cooldown_semantics (cfg : Config) (now : Nat) (k : String)
    (st : AgentState) :
    ((cooldown cfg now k st).1 = .error .CooldownActive ↔
      0 < (alookup cfg.cooldowns k).getD 0 ∧
        now - (alookup st.lastAction k).getD 0
          < (alookup cfg.cooldowns k).getD 0) ∧
    ((cooldown cfg now k st).1 = .ok () →
      alookup (cooldown cfg now k st).2.lastAction k = some now) ∧
    (alookup cfg.cooldowns k = none → (cooldown cfg now k st).1 = .ok ()) ∧
    (∀ path at_ sk e st2,
      (runGates cfg path (some k) at_ sk e st2).res = .ok () →
      alookup (runGates cfg path (some k) at_ sk e st2).st.lastAction k
        = some e.now) := by
  refine ⟨?_, cooldown_sets cfg now k st, ?_,
    fun path at_ sk e st2 => runGates_cooldown_mark cfg path k at_ sk e st2⟩
  · unfold cooldown
    dsimp only
    split
    · rename_i hcond
      simp [hcond]
    · rename_i hcond
      simp [hcond]
  · intro hnone
    unfold cooldown
    dsimp only
    rw [if_neg (by simp [hnone])]

/-- Witness for C7 at a concrete input: cooldown 10 configured for `press`,
last invocation at time 3, now 5: the check fails; with no configured
cooldown it passes. -/
theorem C7_witness :
    (cooldown { cfg0 with cooldowns := [("press", 10)] } 5 "press"
        { st0c with lastAction := [("press", 3)] }).1
      = .error .CooldownActive ∧
    (cooldown cfg0 5 "click" st0c).1 = .ok () :=
  ⟨(C7_cooldown_semantics { cfg0 with cooldowns := [("press", 10)] } 5 "press"
      { st0c with lastAction := [("press", 3)] }).1.mpr (by decide),
   (C7_cooldown_semantics cfg0 5 "click" st0c).2.2.1 rfl⟩

/- ---------- C9 ---------- -/

/-- **C9.** Session validation fails with `Unauthorized` iff the presented
token is absent, unknown, or its stored expiry is in the past; an expiry
failure evicts the entry as a side effect; a valid in-date token passes
with no state change; and a token created with TTL `t` validates within
`t` seconds of creation but is rejected later than that. -/
theorem C9_session_validation (now : Nat) (tok : Option Nat)
    (st : AgentState) :
    ((session_auth now tok st).1 = .error .Unauthorized ↔
      tok = none ∨
      (∃ t, tok = some t ∧ alookup st.sessions t = none) ∨
      (∃ t exp2, tok = some t ∧ alookup st.sessions t = some exp2 ∧
        exp2 < now)) ∧
    (∀ t exp2, tok = some t → alookup st.sessions t = some exp2 →
      exp2 < now →
      (session_auth now tok st).2.sessions = aerase st.sessions t) ∧
    (∀ t exp2, tok = some t → alookup st.sessions t = some exp2 →
      now ≤ exp2 →
      (session_auth now tok st).1 = .ok () ∧
        (session_auth now tok st).2 = st) ∧
    (∀ cfg at_ e st0 r v, (create_session cfg at_ e st0).res = .ok r →
      (e.now + cfg.sessionTTL < v →
        (session_auth v (some st0.ctr) (create_session cfg at_ e st0).st).1
          = .error .Unauthorized) ∧
      (v ≤ e.now + cfg.sessionTTL →
        (session_auth v (some st0.ctr) (create_session cfg at_ e st0).st).1
          = .ok ())) := by
  refine ⟨?_, ?_, ?_, ?_⟩
  · cases tok with
    | none => simp [session_auth]
    | some t =>
      rcases hlk : alookup st.sessions t with - | exp2
      · simp [session_auth, hlk]
      · by_cases hlt : exp2 < now
        · simp [session_auth, hlk, hlt]
        · simp [session_auth, hlk, hlt]
  · intro t exp2 htok hlk hlt
    subst htok
    simp [session_auth, hlk, hlt]
  · intro t exp2 htok hlk hle
    subst htok
    simp [session_auth, hlk, Nat.not_lt.mpr hle]
  · intro cfg at_ e st0 r v hok
    unfold create_session at hok ⊢
    rcases ha : auth cfg at_ with err | u
    · rw [ha] at hok
      simp at hok
    · obtain ⟨⟩ := u
      dsimp only
      constructor
      · intro hlt
        simp [session_auth, alookup_ainsert, hlt]
      · intro hle
        simp [session_auth, alookup_ainsert, Nat.not_lt.mpr hle]

/-- Witness for C9: a token with TTL 1 created at time 10 validates at
time 11 and is rejected at time 12. -/
theorem C9_witness :
    (session_auth 12 (some st0c.ctr)
        (create_session { cfg0 with sessionTTL := 1 } none
          { env0 with now := 10 } st0c).st).1 = .error .Unauthorized ∧
    (session_auth 11 (some st0c.ctr)
        (create_session { cfg0 with sessionTTL := 1 } none
          { env0 with now := 10 } st0c).st).1 = .ok () :=
  ⟨((C9_session_validation 12 (some st0c.ctr) st0c).2.2.2
      { cfg0 with sessionTTL := 1 } none { env0 with now := 10 } st0c
      (Resp.ok [("session_token", JVal.n st0c.ctr), ("expires_in", JVal.n 1)])
      12 rfl).1 (by decide),
   ((C9_session_validation 11 (some st0c.ctr) st0c).2.2.2
      { cfg0 with sessionTTL := 1 } none { env0 with now := 10 } st0c
      (Resp.ok [("session_token", JVal.n st0c.ctr), ("expires_in", JVal.n 1)])
      11 rfl).2 (by decide)⟩

/- ---------- C3 ---------- -/

/-- A `/press` call presenting a handle whose pending entry does not bind
kind `press` (or no entry at all) never reaches the driver. -/
theorem press_keys_defers (cfg : Config) (keys : List String) (aid : Nat)
    (at_ : Option String) (sk : Option Nat) (e : Env) (st : AgentState)
    (h : ∀ a, alookup st.pending aid = some a → a ≠ "press") :
    hasOp (press_keys cfg keys (some aid) at_ sk e st).trace = false := by
  obtain ⟨-, gtr, gep, -, -, -⟩ :=
    runGates_spec cfg "/press" (some "press") at_ sk e st
  have hnop := runGates_no_op cfg "/press" (some "press") at_ sk e st
  unfold press_keys
  rcases hr : runGates cfg "/press" (some "press") at_ sk e st
    with ⟨r, stg, tr⟩
  rw [hr] at gtr gep hnop
  dsimp only at gtr gep hnop
  cases r with
  | error err => exact hnop
  | ok u =>
    obtain ⟨⟩ := u
    dsimp only
    have htr := gtr rfl
    rcases hlk : alookup stg.pending aid with - | a
    · rw [confirm_gate_stale "press" (by decide) aid stg hlk]
      dsimp only
      rw [htr]
      exact hasOp_gatesUpTo _
    · have hne : a ≠ "press" := h a (by rw [← gep]; exact hlk)
      rw [confirm_gate_mismatch "press" (by decide) aid stg a hlk hne]
      dsimp only
      rw [htr]
      exact hasOp_gatesUpTo _

/-- **C3.** A presented confirmation handle passes the confirmation gate
for a sensitive action kind iff the pending entry stored under that handle
binds exactly that kind; a handle issued while guarding a different kind
never lets `/press` (the endpoint cited by the claim) execute. -/
theorem C3_kind_binding :
    (∀ k, k ∈ SENSITIVE_ACTIONS → ∀ aid st,
      ((confirm_gate k (some aid) st).1 = none ↔
        alookup st.pending aid = some k)) ∧
    (∀ cfg keys aid at_ sk e st k', alookup st.pending aid = some k' →
      k' ≠ "press" →
      hasOp (press_keys cfg keys (some aid) at_ sk e st).trace = false) := by
  constructor
  · intro k hk aid st
    constructor
    · intro hgate
      rcases hlk : alookup st.pending aid with - | a
      · rw [confirm_gate_stale k hk aid st hlk] at hgate
        simp at hgate
      · by_cases ha : a = k
        · subst ha
          rfl
        · rw [confirm_gate_mismatch k hk aid st a hlk ha] at hgate
          simp at hgate
    · intro hlk
      rw [confirm_gate_hit k hk aid st hlk]
  · intro cfg keys aid at_ sk e st k' hlk hne
    refine press_keys_defers cfg keys aid at_ sk e st (fun a ha => ?_)
    rw [hlk] at ha
    injection ha with h2
    rw [← h2]
    exact hne

/-- Witness for C3: a handle pending for `press` passes the gate for
`press`; a handle pending for `open_app` leaves a concrete `/press` call
without any driver or audit event. -/
theorem C3_witness :
    (confirm_gate "press" (some 0)
        { st0c with pending := [(0, "press")], ctr := 3 }).1 = none ∧
    hasOp (press_keys cfg0 ["a"] (some 0) none (some 0) env0
        { st0c with pending := [(0, "open_app")], ctr := 3 }).trace = false :=
  ⟨(C3_kind_binding.1 "press" (by decide) 0
      { st0c with pending := [(0, "press")], ctr := 3 }).mpr rfl,
   C3_kind_binding.2 cfg0 ["a"] 0 none (some 0) env0
      { st0c with pending := [(0, "open_app")], ctr := 3 } "open_app" rfl
      (by decide)⟩

/- ---------- C4 ---------- -/

theorem alookup_eq_none {α β : Type} [DecidableEq α] (m : List (α × β))
    (k : α) (h : k ∉ m.map Prod.fst) : alookup m k = none := by
  induction m with
  | nil => rfl
  | cons kv rest ih =>
    obtain ⟨k0, v0⟩ := kv
    simp only [List.map_cons, List.mem_cons, not_or] at h
    simp [alookup, h.1, ih h.2]

theorem alookup_aerase_self {α β : Type} [DecidableEq α] (m : List (α × β))
    (k : α) (hnd : (m.map Prod.fst).Nodup) : alookup (aerase m k) k = none := by
  induction m with
  | nil => rfl
  | cons kv rest ih =>
    obtain ⟨k0, v0⟩ := kv
    simp only [List.map_cons, List.nodup_cons] at hnd
    by_cases h0 : k = k0
    · subst h0
      simp only [aerase, if_pos rfl]
      exact alookup_eq_none rest k hnd.1
    · simp [aerase, h0, alookup, ih hnd.2]

/-- **C4 counterexample.** After `/confirm` succeeds on the pending handle
`0` for kind `press` (returning the kind, executing nothing), retrying
`/press` while presenting that same handle does **not** execute: the retry
returns needs-confirmation with a fresh handle, because `/confirm` already
consumed the entry.  This refutes the claim that the pre-confirm-then-retry
workflow leads to execution. -/
theorem C4_counterexample :
    (confirm cfg0 0 none (some 0) env0
        { st0c with pending := [(0, "press")], ctr := 3 }).res
      = .ok (Resp.ok [("action", JVal.s "press")]) ∧
    (press_keys cfg0 ["a"] (some 0) none (some 0) env0
        (confirm cfg0 0 none (some 0) env0
          { st0c with pending := [(0, "press")], ctr := 3 }).st).res
      = .ok (Resp.needsConfirmation 3) ∧
    hasOp (press_keys cfg0 ["a"] (some 0) none (some 0) env0
        (confirm cfg0 0 none (some 0) env0
          { st0c with pending := [(0, "press")], ctr := 3 }).st).trace
      = false :=
  ⟨rfl, rfl, rfl⟩

/-- **C4 (amended).** A successful `/confirm` on a pending handle removes
the entry and returns its kind without executing anything; but since the
handle is thereby consumed, a subsequent retry of the sensitive action
presenting that same handle does **not** execute — the confirmation gate
defers it again with a fresh handle.  A handle is consumed exactly once, by
whichever of `/confirm` or a retried action call uses it first. -/
theorem C4_confirm_consumes (cfg : Config) (aid : Nat) (at_ : Option String)
    (sk : Option Nat) (e : Env) (st : AgentState) (r : Resp)
    (hnd : (st.pending.map Prod.fst).Nodup)
    (hok : (confirm cfg aid at_ sk e st).res = .ok r) :
    alookup (confirm cfg aid at_ sk e st).st.pending aid = none ∧
    hasOp (confirm cfg aid at_ sk e st).trace = false ∧
    (∀ k, k ∈ SENSITIVE_ACTIONS →
      ∃ h2, (confirm_gate k (some aid)
        (confirm cfg aid at_ sk e st).st).1 = some h2) ∧
    (∀ cfg2 keys at2 sk2 e2,
      hasOp (press_keys cfg2 keys (some aid) at2 sk2 e2
        (confirm cfg aid at_ sk e st).st).trace = false) := by
  obtain ⟨sp, -, -⟩ := session_auth_keep e.now sk st
  unfold confirm at hok ⊢
  rcases ha : auth cfg at_ with err | u
  · rw [ha] at hok
    simp at hok
  · obtain ⟨⟩ := u
    rw [ha] at hok
    dsimp only
    dsimp only at hok
    rcases hs : session_auth e.now sk st with ⟨rs, st1⟩
    rw [hs] at hok sp
    dsimp only at hok sp
    cases rs with
    | error err =>
      simp at hok
    | ok u2 =>
      obtain ⟨⟩ := u2
      dsimp only
      dsimp only at hok
      rcases hlk : alookup st1.pending aid with - | a
      · rw [hlk] at hok
        simp at hok
      · dsimp only
        have hnone : alookup (aerase st1.pending aid) aid = none :=
          alookup_aerase_self st1.pending aid (by rw [sp]; exact hnd)
        refine ⟨hnone, rfl, ?_, ?_⟩
        · intro k hk
          rw [confirm_gate_stale k hk aid _ hnone]
          exact ⟨_, rfl⟩
        · intro cfg2 keys at2 sk2 e2
          refine press_keys_defers cfg2 keys aid at2 sk2 e2 _
            (fun a2 ha2 => ?_)
          rw [hnone] at ha2
          cases ha2

/-- Witness for C4 (amended) at the concrete consumed-handle scenario. -/
theorem C4_witness :
    alookup (confirm cfg0 0 none (some 0) env0
        { st0c with pending := [(0, "press")], ctr := 3 }).st.pending 0
      = none :=
  (C4_confirm_consumes cfg0 0 none (some 0) env0
      { st0c with pending := [(0, "press")], ctr := 3 }
      (Resp.ok [("action", JVal.s "press")]) (by decide) rfl).1

/- ---------- C5 ---------- -/

/-- A state holding one registered UI element with id 3. -/
def stUI : AgentState :=
  { st0c with uiIndex := [(3, AXElem.node (some "AXTextField") none none [])],
              ctr := 4 }

/-- **C5.** The audit line persisted for an executed `/ui_set` action holds
the caller's raw `value` — never the redaction marker — although `value` is
one of the four field names `_redact` is documented (and elsewhere used) to
replace: the handler writes its payload without calling `_redact`.  The
theorem evaluates the code at the failing input
`{element_id: 3, value: "secret"}`: the action executes, the audit line
carries `"secret"` verbatim, no redacted line is written, and `_redact`
applied to that same payload would have produced the marker. -/
theorem C5_unredacted_ui_set :
    (ui_set cfg0 3 (some "secret") none (some 0) env0 stUI).res
      = .ok (Resp.ok []) ∧
    Ev.auditLine "ui_set"
        [("element_id", JVal.n 3), ("value", JVal.s "secret")]
      ∈ (ui_set cfg0 3 (some "secret") none (some 0) env0 stUI).trace ∧
    Ev.auditLine "ui_set"
        [("element_id", JVal.n 3), ("value", JVal.s "***")]
      ∉ (ui_set cfg0 3 (some "secret") none (some 0) env0 stUI).trace ∧
    redact [("element_id", JVal.n 3), ("value", JVal.s "secret")]
      = [("element_id", JVal.n 3), ("value", JVal.s "***")] :=
  ⟨rfl, by decide, by decide, rfl⟩

/- ---------- C10 ---------- -/

/-- **C10.** Redaction operates on a copy and never alters the values the
drivers receive: reading any non-redacted key of the redacted copy gives
the original value, redaction preserves the key structure, and for the
executed `type` and `ui_set` actions the driver event carries the caller's
original text/value even though the `type` audit line carries the marker. -/
theorem C10_redaction_copy :
    (∀ (p : Payload) (k : String), k ∉ REDACT_KEYS →
      alookup (redact p) k = alookup p k) ∧
    (∀ p : Payload, (redact p).map Prod.fst = p.map Prod.fst) ∧
    (∀ cfg text itv at_ sk e st,
      (runGates cfg "/type" (some "type") at_ sk e st).res = .ok () →
      Ev.driver "pyautogui.typewrite"
          [("text", JVal.s text), ("interval", JVal.n itv)]
        ∈ (type_text cfg text itv at_ sk e st).trace ∧
      Ev.auditLine "type" [("text", JVal.s "***"), ("interval", JVal.n itv)]
        ∈ (type_text cfg text itv at_ sk e st).trace) ∧
    (∀ cfg eid v at_ sk e st el,
      (runGates cfg "/ui_set" none at_ sk e st).res = .ok () →
      alookup st.uiIndex eid = some el →
      Ev.driver "AXSetValue"
          [("element_id", JVal.n eid), ("value", JVal.s v)]
        ∈ (ui_set cfg eid (some v) at_ sk e st).trace) := by
  have redact_cons : ∀ (k0 : String) (v0 : JVal) (rest : Payload),
      redact ((k0, v0) :: rest)
        = (if k0 ∈ REDACT_KEYS then (k0, JVal.s "***") else (k0, v0))
            :: redact rest := by
    intro k0 v0 rest
    by_cases hm : k0 ∈ REDACT_KEYS <;> simp [redact, hm]
  refine ⟨?_, ?_, ?_, ?_⟩
  · intro p k hk
    induction p with
    | nil => rfl
    | cons kv rest ih =>
      obtain ⟨k0, v0⟩ := kv
      rw [redact_cons]
      by_cases hm : k0 ∈ REDACT_KEYS
      · rw [if_pos hm]
        have hne : ¬ k = k0 := fun he => hk (he ▸ hm)
        simp only [alookup, if_neg hne]
        exact ih
      · rw [if_neg hm]
        by_cases he : k = k0
        · subst he
          simp [alookup]
        · simp only [alookup, if_neg he]
          exact ih
  · intro p
    induction p with
    | nil => rfl
    | cons kv rest ih =>
      obtain ⟨k0, v0⟩ := kv
      rw [redact_cons]
      by_cases hm : k0 ∈ REDACT_KEYS
      · rw [if_pos hm]
        simp [ih]
      · rw [if_neg hm]
        simp [ih]
  · intro cfg text itv at_ sk e st hok
    have hred : redact [("text", JVal.s text), ("interval", JVal.n itv)]
        = [("text", JVal.s "***"), ("interval", JVal.n itv)] := by
      simp [redact, REDACT_KEYS]
    unfold type_text
    rcases hr : runGates cfg "/type" (some "type") at_ sk e st
      with ⟨r, stg, tr⟩
    rw [hr] at hok
    dsimp only at hok
    cases r with
    | error err => simp at hok
    | ok u =>
      obtain ⟨⟩ := u
      dsimp only
      rw [hred]
      constructor <;> simp
  · intro cfg eid v at_ sk e st el hok hlk
    obtain ⟨-, -, -, -, gui, -⟩ := runGates_spec cfg "/ui_set" none at_ sk e st
    unfold ui_set
    rcases hr : runGates cfg "/ui_set" none at_ sk e st with ⟨r, stg, tr⟩
    rw [hr] at hok gui
    dsimp only at hok gui
    cases r with
    | error err => simp at hok
    | ok u =>
      obtain ⟨⟩ := u
      dsimp only
      have hlk2 : alookup stg.uiIndex eid = some el := by
        rw [gui]
        exact hlk
      rw [hlk2]
      dsimp only
      simp

/-- Witness for C10 at a concrete executed `type` action. -/
theorem C10_witness :
    Ev.driver "pyautogui.typewrite"
        [("text", JVal.s "secret"), ("interval", JVal.n 0)]
      ∈ (type_text cfg0 "secret" 0 none (some 0) env0 st0c).trace ∧
    Ev.auditLine "type" [("text", JVal.s "***"), ("interval", JVal.n 0)]
      ∈ (type_text cfg0 "secret" 0 none (some 0) env0 st0c).trace :=
  C10_redaction_copy.2.2.1 cfg0 "secret" 0 none (some 0) env0 st0c rfl

/- ---------- C8 ---------- -/

theorem confirm_gate_ui (k : String) (aid : Option Nat) (st : AgentState) :
    (confirm_gate k aid st).2.uiIndex = st.uiIndex := by
  unfold confirm_gate consume_confirmation require_confirmation
  dsimp only
  repeat' split
  all_goals simp_all

mutual

theorem ax_to_node_stale (el : AXElem) (d m : Nat) (st : AgentState)
    (h : Nat) (hlt : h < st.ctr) (hnone : alookup st.uiIndex h = none) :
    st.ctr ≤ (ax_to_node el d m st).2.ctr ∧
    alookup (ax_to_node el d m st).2.uiIndex h = none := by
  cases el with
  | node role title value children =>
    unfold ax_to_node
    dsimp only
    by_cases hd : d ≥ m
    · rw [if_pos hd]
      dsimp only
      refine ⟨Nat.le_succ _, ?_⟩
      rw [alookup_ainsert_ne st.uiIndex st.ctr h _ (Nat.ne_of_lt hlt)]
      exact hnone
    · rw [if_neg hd]
      dsimp only
      have hrec := ax_children_stale children (d + 1) m
        { st with
            uiIndex := ainsert st.uiIndex st.ctr
              (AXElem.node role title value children),
            ctr := st.ctr + 1 } h (Nat.lt_succ_of_lt hlt)
        (by
          rw [alookup_ainsert_ne st.uiIndex st.ctr h _ (Nat.ne_of_lt hlt)]
          exact hnone)
      exact ⟨Nat.le_of_succ_le hrec.1, hrec.2⟩

theorem ax_children_stale (es : List AXElem) (d m : Nat) (st : AgentState)
    (h : Nat) (hlt : h < st.ctr) (hnone : alookup st.uiIndex h = none) :
    st.ctr ≤ (ax_children es d m st).2.ctr ∧
    alookup (ax_children es d m st).2.uiIndex h = none := by
  cases es with
  | nil =>
    unfold ax_children
    exact ⟨Nat.le_refl _, hnone⟩
  | cons c rest =>
    unfold ax_children
    dsimp only
    have h1 := ax_to_node_stale c d m st h hlt hnone
    have h2 := ax_children_stale rest d m (ax_to_node c d m st).2 h
      (Nat.lt_of_lt_of_le hlt h1.1) h1.2
    exact ⟨Nat.le_trans h1.1 h2.1, h2.2⟩

end

/-- **C8.** Every fresh traversal (`/ui_tree/full` or `/ui_search`)
entirely replaces the UI handle registry: if `h` was issued before the
traversal (`h < ctr`, every issued identifier being below the uuid
counter), then after a successful traversal `h` no longer resolves; and a
handle absent from the registry fails resolution with `NotFound` in every
handle-resolving operation (`/ui_click`, `/ui_set`, `/ui_focus`,
`/ui_scroll`) — in particular a stale handle can never make `/ui_click`
report a successful click. -/
theorem C8_stale_handles (h : Nat) :
    (∀ cfg md at_ sk e st r2, h < st.ctr →
      (ui_tree_full cfg md at_ sk e st).res = .ok r2 →
      alookup (ui_tree_full cfg md at_ sk e st).st.uiIndex h = none) ∧
    (∀ cfg q md at_ sk e st r2, h < st.ctr →
      (ui_search cfg q md at_ sk e st).res = .ok r2 →
      alookup (ui_search cfg q md at_ sk e st).st.uiIndex h = none) ∧
    (∀ cfg aid at_ sk e st, alookup st.uiIndex h = none →
      (runGates cfg "/ui_click" (some "ui_click") at_ sk e st).res = .ok () →
      (confirm_gate "press" aid
        (runGates cfg "/ui_click" (some "ui_click") at_ sk e st).st).1
          = none →
      (ui_click cfg h aid at_ sk e st).res = .error .NotFound) ∧
    (∀ cfg v at_ sk e st, alookup st.uiIndex h = none →
      (runGates cfg "/ui_set" none at_ sk e st).res = .ok () →
      (ui_set cfg h v at_ sk e st).res = .error .NotFound) ∧
    (∀ cfg at_ sk e st, alookup st.uiIndex h = none →
      (runGates cfg "/ui_focus" none at_ sk e st).res = .ok () →
      (ui_focus cfg h at_ sk e st).res = .error .NotFound) ∧
    (∀ cfg at_ sk e st, alookup st.uiIndex h = none →
      (runGates cfg "/ui_scroll" none at_ sk e st).res = .ok () →
      (ui_scroll cfg h at_ sk e st).res = .error .NotFound) ∧
    (∀ cfg aid at_ sk e st, alookup st.uiIndex h = none →
      ∀ p, (ui_click cfg h aid at_ sk e st).res ≠ .ok (Resp.ok p)) := by
  refine ⟨?_, ?_, ?_, ?_, ?_, ?_, ?_⟩
  · intro cfg md at_ sk e st r2 hlt hok
    obtain ⟨-, -, -, gc, -, -⟩ :=
      runGates_spec cfg "/ui_tree/full" none at_ sk e st
    unfold ui_tree_full at hok ⊢
    rcases hr : runGates cfg "/ui_tree/full" none at_ sk e st with ⟨r, stg, tr⟩
    rw [hr] at hok gc
    dsimp only at hok gc ⊢
    cases r with
    | error err => simp at hok
    | ok u =>
      obtain ⟨⟩ := u
      dsimp only at hok ⊢
      by_cases hax : e.axAvailable = true
      · rw [if_pos hax] at hok ⊢
        rcases hroot : e.axRoot with - | root
        · rw [hroot] at hok
          simp at hok
        · rw [hroot] at hok
          dsimp only at hok ⊢
          exact (ax_to_node_stale root 0 md { stg with uiIndex := [] } h
            (by simpa [gc] using hlt) rfl).2
      · rw [if_neg hax] at hok
        simp at hok
  · intro cfg q md at_ sk e st r2 hlt hok
    obtain ⟨-, -, -, gc, -, -⟩ :=
      runGates_spec cfg "/ui_search" none at_ sk e st
    unfold ui_search at hok ⊢
    rcases hr : runGates cfg "/ui_search" none at_ sk e st with ⟨r, stg, tr⟩
    rw [hr] at hok gc
    dsimp only at hok gc ⊢
    cases r with
    | error err => simp at hok
    | ok u =>
      obtain ⟨⟩ := u
      dsimp only at hok ⊢
      by_cases hax : e.axAvailable = true
      · rw [if_pos hax] at hok ⊢
        rcases hroot : e.axRoot with - | root
        · rw [hroot] at hok
          simp at hok
        · rw [hroot] at hok
          dsimp only at hok ⊢
          exact (ax_to_node_stale root 0 md { stg with uiIndex := [] } h
            (by simpa [gc] using hlt) rfl).2
      · rw [if_neg hax] at hok
        simp at hok
  · intro cfg aid at_ sk e st hnone hok hcgnone
    obtain ⟨-, -, -, -, gui, -⟩ :=
      runGates_spec cfg "/ui_click" (some "ui_click") at_ sk e st
    unfold ui_click
    rcases hr : runGates cfg "/ui_click" (some "ui_click") at_ sk e st
      with ⟨r, stg, tr⟩
    rw [hr] at hok gui hcgnone
    dsimp only at hok gui hcgnone
    cases r with
    | error err => simp at hok
    | ok u =>
      obtain ⟨⟩ := u
      dsimp only
      have hui := confirm_gate_ui "press" aid stg
      rcases hcg : confirm_gate "press" aid stg with ⟨o, st2⟩
      rw [hcg] at hui hcgnone
      dsimp only at hui hcgnone
      subst hcgnone
      dsimp only
      have hl : alookup st2.uiIndex h = none := by
        rw [hui, gui]
        exact hnone
      rw [hl]
  · intro cfg v at_ sk e st hnone hok
    obtain ⟨-, -, -, -, gui, -⟩ := runGates_spec cfg "/ui_set" none at_ sk e st
    unfold ui_set
    rcases hr : runGates cfg "/ui_set" none at_ sk e st with ⟨r, stg, tr⟩
    rw [hr] at hok gui
    dsimp only at hok gui
    cases r with
    | error err => simp at hok
    | ok u =>
      obtain ⟨⟩ := u
      dsimp only
      have hl : alookup stg.uiIndex h = none := by
        rw [gui]
        exact hnone
      rw [hl]
  · intro cfg at_ sk e st hnone hok
    obtain ⟨-, -, -, -, gui, -⟩ := runGates_spec cfg "/ui_focus" none at_ sk e st
    unfold ui_focus
    rcases hr : runGates cfg "/ui_focus" none at_ sk e st with ⟨r, stg, tr⟩
    rw [hr] at hok gui
    dsimp only at hok gui
    cases r with
    | error err => simp at hok
    | ok u =>
      obtain ⟨⟩ := u
      dsimp only
      have hl : alookup stg.uiIndex h = none := by
        rw [gui]
        exact hnone
      rw [hl]
  · intro cfg at_ sk e st hnone hok
    obtain ⟨-, -, -, -, gui, -⟩ := runGates_spec cfg "/ui_scroll" none at_ sk e st
    unfold ui_scroll
    rcases hr : runGates cfg "/ui_scroll" none at_ sk e st with ⟨r, stg, tr⟩
    rw [hr] at hok gui
    dsimp only at hok gui
    cases r with
    | error err => simp at hok
    | ok u =>
      obtain ⟨⟩ := u
      dsimp only
      have hl : alookup stg.uiIndex h = none := by
        rw [gui]
        exact hnone
      rw [hl]
  · intro cfg aid at_ sk e st hnone p
    obtain ⟨-, -, -, -, gui, -⟩ :=
      runGates_spec cfg "/ui_click" (some "ui_click") at_ sk e st
    unfold ui_click
    rcases hr : runGates cfg "/ui_click" (some "ui_click") at_ sk e st
      with ⟨r, stg, tr⟩
    rw [hr] at gui
    dsimp only at gui
    cases r with
    | error err => simp
    | ok u =>
      obtain ⟨⟩ := u
      dsimp only
      have hui := confirm_gate_ui "press" aid stg
      rcases hcg : confirm_gate "press" aid stg with ⟨o, st2⟩
      rw [hcg] at hui
      dsimp only at hui
      cases o with
      | some h2 =>
        dsimp only
        simp
      | none =>
        dsimp only
        have hl : alookup st2.uiIndex h = none := by
          rw [hui, gui]
          exact hnone
        rw [hl]
        simp

/-- Witness for C8: after a fresh concrete traversal, the previously issued
handle `0` no longer resolves, and a concrete `/ui_click` on it returns
`NotFound`. -/
theorem C8_witness :
    alookup (ui_tree_full cfg0 2 none (some 0) env0 stUI).st.uiIndex 0
      = none ∧
    (ui_click cfg0 0 (some 9) none (some 0) env0
        { stUI with pending := [(9, "press")], uiIndex := [] }).res
      = .error .NotFound :=
  ⟨(C8_stale_handles 0).1 cfg0 2 none (some 0) env0 stUI
      (Resp.okTree (UINode.mk 4 (some "AXButton") (some "OK") none []))
      (by decide) rfl,
   (C8_stale_handles 0).2.2.1 cfg0 (some 9) none (some 0) env0
      { stUI with pending := [(9, "press")], uiIndex := [] } rfl rfl rfl⟩
